import Mathlib

/-!
# portaudio.c : the PortAudio (v19) audio output plugin of VLC

A shallow embedding of `src/modules/audio_output/portaudio.c`.

* Memory buffers are lists of bytes; `memcpy` / `memset` past the end of a
  buffer is undefined behaviour and is modelled by `none`.
* Calls into the native engine, the VLC variable store and the output
  pipeline are recorded, in program order, in a list of `Call`s; what those
  calls answer is supplied by an environment record (`PaEnv`).
* `msg_Dbg` / `msg_Err` only log and are left out.
-/

namespace PortAudio

/-! ## Data model -/

/-- One byte of a sample buffer. -/
abbrev Byte := Nat

/-- The part of `aout_buffer_t` the plugin reads: the sample bytes `p_buffer`. -/
structure aout_buffer_t where
  p_buffer : List Byte
  deriving DecidableEq, Repr

/-- The fields of `PaDeviceInfo` the plugin reads (the latency hint, a `double`
that is only handed back to the engine, is left out). -/
structure PaDeviceInfo where
  name : String
  maxInputChannels : Int
  maxOutputChannels : Int
  deriving DecidableEq, Repr

/-- A `PaStream *`: `none` is the null pointer. -/
abbrev PaStream := Option Nat

/-- Calls the plugin makes to its collaborators, with the arguments and
answers that matter to the plugin's contract. -/
inductive Call where
  | aout_OutputNextBuffer
  | pf_memcpy (nbytes : Nat)
  | pf_memset (nbytes : Nat)
  | aout_BufferFree (p_buffer : aout_buffer_t)
  | Pa_Initialize (i_err : Int)
  | Pa_GetDeviceCount
  | Pa_GetDeviceInfo (i : Int)
  | Pa_Terminate
  | var_Get_audio_device
  | Pa_OpenStream (device : Int) (channelCount : Int) (framesPerBuffer : Nat) (i_err : Int)
  | Pa_StartStream (p_stream : PaStream) (i_err : Int)
  | Pa_StopStream (p_stream : PaStream)
  | Pa_CloseStream (p_stream : PaStream)
  | vlc_thread_create
  | vlc_thread_ready (b_error : Bool)
  | vlc_cond_wait (b_die_on_return : Bool)
  | vlc_cond_signal
  | vlc_thread_join
  deriving DecidableEq, Repr

/-- The plugin's `struct aout_sys_t` (the back pointer `p_aout`, the lock, the
condition variable and the thread object live elsewhere in the model). -/
structure aout_sys_t where
  p_stream : PaStream
  i_devices : Int
  i_sample_size : Int
  i_device_id : Int
  deviceInfo : Option PaDeviceInfo
  deriving DecidableEq, Repr

/-! ## The real-time callback -/

/-- The function behind `p_vlc->pf_memcpy`: copy the first `k` bytes of `src` over
the first `k` bytes of `dst`; undefined when either buffer is shorter. -/
def pf_memcpy (dst src : List Byte) (k : Nat) : Option (List Byte) :=
  if k ≤ dst.length ∧ k ≤ src.length then some (src.take k ++ dst.drop k) else none

/-- The function behind `p_vlc->pf_memset`: set the first `k` bytes of `dst` to `c`;
undefined when the buffer is shorter. -/
def pf_memset (dst : List Byte) (c : Byte) (k : Nat) : Option (List Byte) :=
  if k ≤ dst.length then some (List.replicate k c ++ dst.drop k) else none

/-- Conversion of an `int` to `unsigned long` of `w` bits. -/
def toULong (w : Nat) (x : Int) : Nat := (x % (2 ^ w : Int)).toNat

/-- The byte count `framesPerBuffer * p_sys->i_sample_size`, computed in
`unsigned long` of `w` bits. -/
def byteCount (w : Nat) (framesPerBuffer : Nat) (i_sample_size : Int) : Nat :=
  (framesPerBuffer * toULong w i_sample_size) % 2 ^ w

/-- What one invocation of `paCallback` leaves behind. -/
structure CallbackResult where
  ret : Int
  outputBuffer : List Byte
  calls : List Call
  deriving DecidableEq, Repr

/-- Model of `paCallback`. `w` is the width of `unsigned long`; `next` is what
`aout_OutputNextBuffer` answers for the date computed from `paDate` (`none` is
the null pointer). The result is `none` when the copy or fill runs past the end
of a buffer. -/
def paCallback (w : Nat) (p_sys : aout_sys_t) (next : Option aout_buffer_t)
    (outputBuffer : List Byte) (framesPerBuffer : Nat) : Option CallbackResult :=
  match next with
  | some p_buffer =>
    match pf_memcpy outputBuffer p_buffer.p_buffer (byteCount w framesPerBuffer p_sys.i_sample_size) with
    | some out =>
      some { ret := 0, outputBuffer := out,
             calls := [Call.aout_OutputNextBuffer,
                       Call.pf_memcpy (byteCount w framesPerBuffer p_sys.i_sample_size),
                       Call.aout_BufferFree p_buffer] }
    | none => none
  | none =>
    match pf_memset outputBuffer 0 (byteCount w framesPerBuffer p_sys.i_sample_size) with
    | some out =>
      some { ret := 0, outputBuffer := out,
             calls := [Call.aout_OutputNextBuffer,
                       Call.pf_memset (byteCount w framesPerBuffer p_sys.i_sample_size)] }
    | none => none

/-- One request of the engine to the callback: what the pipeline will answer,
the output buffer handed in and the frame count. -/
structure Invocation where
  next : Option aout_buffer_t
  outputBuffer : List Byte
  framesPerBuffer : Nat
  deriving DecidableEq, Repr

/-- The engine invoking `paCallback` once per request, in order. -/
def runCallbacks (w : Nat) (p_sys : aout_sys_t) (invs : List Invocation) :
    List (Option CallbackResult) :=
  invs.map (fun inv => paCallback w p_sys inv.next inv.outputBuffer inv.framesPerBuffer)

/-- Number of frames released to the pipeline in a list of calls. -/
def freeCount (calls : List Call) : Nat :=
  calls.countP (fun c => match c with | Call.aout_BufferFree _ => true | _ => false)

/-! ## Constants of the headers -/

/-- Modelled from the spec: the success code of VLC's `vlc/vlc.h`, which is not under `src/`. -/
def VLC_SUCCESS : Int := 0

/-- Modelled from the spec: the out-of-memory code of VLC's `vlc/vlc.h`, which is not under `src/`. -/
def VLC_ENOMEM : Int := -1

/-- Modelled from the spec: the generic failure code of VLC's `vlc/vlc.h`, which is not under `src/`. -/
def VLC_EGENERIC : Int := -666

/-- Modelled from the spec: the success code of `portaudio.h`, which is not under `src/`. -/
def paNoError : Int := 0

/-- `#define FRAME_SIZE 1024`: the size is in samples, not in bytes. -/
def FRAME_SIZE : Nat := 1024

/-- Modelled from the spec: the channel-configuration value Mono of `vlc/aout.h`, which is not under `src/`. -/
def AOUT_VAR_MONO : Int := 1

/-- Modelled from the spec: the channel-configuration value Stereo of `vlc/aout.h`, which is not under `src/`. -/
def AOUT_VAR_STEREO : Int := 2

/-- Modelled from the spec: the channel-configuration value Quad (2F2R) of `vlc/aout.h`, which is not under `src/`. -/
def AOUT_VAR_2F2R : Int := 4

/-- Modelled from the spec: the channel-configuration value FiveChannel (3F2R) of `vlc/aout.h`, which is not under `src/`. -/
def AOUT_VAR_3F2R : Int := 5

/-- Modelled from the spec: the channel-configuration value FiveOne (5.1) of `vlc/aout.h`, which is not under `src/`. -/
def AOUT_VAR_5_1 : Int := 6

/-- Modelled from the spec: the speaker-position flag "center" of `vlc/aout.h`, which is not under `src/`. -/
def AOUT_CHAN_CENTER : Nat := 0x1

/-- Modelled from the spec: the speaker-position flag "left" of `vlc/aout.h`, which is not under `src/`. -/
def AOUT_CHAN_LEFT : Nat := 0x2

/-- Modelled from the spec: the speaker-position flag "right" of `vlc/aout.h`, which is not under `src/`. -/
def AOUT_CHAN_RIGHT : Nat := 0x4

/-- Modelled from the spec: the speaker-position flag "rear-left" of `vlc/aout.h`, which is not under `src/`. -/
def AOUT_CHAN_REARLEFT : Nat := 0x20

/-- Modelled from the spec: the speaker-position flag "rear-right" of `vlc/aout.h`, which is not under `src/`. -/
def AOUT_CHAN_REARRIGHT : Nat := 0x40

/-- Modelled from the spec: the speaker-position flag "low-frequency" of `vlc/aout.h`, which is not under `src/`. -/
def AOUT_CHAN_LFE : Nat := 0x1000

/-- Modelled from the spec: the speaker-position flags a channel mask may carry
(`vlc/aout.h` is not under `src/`). -/
def pi_channels : List Nat :=
  [AOUT_CHAN_CENTER, AOUT_CHAN_LEFT, AOUT_CHAN_RIGHT, AOUT_CHAN_REARLEFT,
   AOUT_CHAN_REARRIGHT, AOUT_CHAN_LFE]

/-- Modelled from the spec: `aout_FormatNbChannels` of the VLC core, which is not
under `src/`: the channel count of a layout is the number of speaker-position
flags set in its mask. -/
def aout_FormatNbChannels (i_physical_channels : Nat) : Int :=
  ((pi_channels.filter (fun c => i_physical_channels &&& c != 0)).length : Int)

/-! ## The output instance and its environment -/

/-- The object variable "audio-device" as the plugin publishes it: its text, its
choices in the order added, the default choice, and the callbacks registered. -/
structure AudioDeviceVar where
  text : String
  choices : List (Int × String)
  defaultChoice : Option Int
  callbacks : List String
  deriving DecidableEq, Repr

/-- The part of `aout_instance_t` the plugin touches: its `p_sys`, the output
format fields, and the object variables "audio-device" (`none` while
`var_Type` answers 0) and "intf-change". -/
structure aout_instance_t where
  p_sys : aout_sys_t
  i_format : String
  i_physical_channels : Nat
  i_nb_samples : Nat
  audio_device : Option AudioDeviceVar
  intf_change : Bool
  deriving DecidableEq, Repr

/-- The answers of the collaborators during one run of the engine thread (or of
one `PAOpenDevice`): the native engine's return codes and device table, the
value `var_Get` reads from "audio-device" (`none`: a negative return code), and
what the thread sees of the stop flag `b_die`. -/
structure PaEnv where
  r_Initialize : Int
  r_GetDeviceCount : Int
  devices : List PaDeviceInfo
  r_var_Get : Option Int
  r_OpenStream : Int
  stream : Nat
  r_StartStream : Int
  b_die_at_lock : Bool
  b_die_after_wait : Bool
  deriving DecidableEq, Repr

/-- The engine's `Pa_GetDeviceInfo`: the null pointer when the index is out of range. -/
def Pa_GetDeviceInfo (env : PaEnv) (i : Int) : Option PaDeviceInfo :=
  if i < 0 then none else env.devices.get? i.toNat

/-- Return code, instance state and calls made by one of the plugin's functions. -/
structure OpenResult where
  ret : Int
  p_aout : aout_instance_t
  calls : List Call
  deriving DecidableEq, Repr

/-! ## PAOpenDevice -/

/-- `var_Change( ..., VLC_VAR_ADDCHOICE, &val, &text )`. -/
def var_AddChoice (v : AudioDeviceVar) (val : Int) (text : String) : AudioDeviceVar :=
  { v with choices := v.choices ++ [(val, text)] }

/-- `var_Change( ..., VLC_VAR_SETDEFAULT, &val, NULL )`. -/
def var_SetDefault (v : AudioDeviceVar) (val : Int) : AudioDeviceVar :=
  { v with defaultChoice := some val }

/-- Lines 338-385 of `PAOpenDevice`: create "audio-device", add one choice per
threshold the device reaches, register the restart callback. -/
def publishChoices (maxOutputChannels : Int) : AudioDeviceVar :=
  let v : AudioDeviceVar := { text := "Audio Device", choices := [], defaultChoice := none, callbacks := [] }
  let v := if maxOutputChannels ≥ 1 then var_AddChoice v AOUT_VAR_MONO "Mono" else v
  let v := if maxOutputChannels ≥ 2 then
      var_SetDefault (var_AddChoice v AOUT_VAR_STEREO "Stereo") AOUT_VAR_STEREO else v
  let v := if maxOutputChannels ≥ 4 then var_AddChoice v AOUT_VAR_2F2R "2 Front 2 Rear" else v
  let v := if maxOutputChannels ≥ 5 then var_AddChoice v AOUT_VAR_3F2R "3 Front 2 Rear" else v
  let v := if maxOutputChannels ≥ 6 then var_AddChoice v AOUT_VAR_5_1 "5.1" else v
  { v with callbacks := v.callbacks ++ ["aout_ChannelsRestart"] }

/-- The `error:` label of `PAOpenDevice`: terminate the engine, fail. -/
def PAOpenDevice_error (p_aout : aout_instance_t) (calls : List Call) : OpenResult :=
  { ret := VLC_EGENERIC, p_aout := p_aout, calls := calls ++ [Call.Pa_Terminate] }

/-- Model of `PAOpenDevice`. The result is `none` when the code dereferences a
null `PaDeviceInfo` pointer. -/
def PAOpenDevice (env : PaEnv) (p_aout : aout_instance_t) : Option OpenResult :=
  if env.r_Initialize ≠ paNoError then
    some { ret := VLC_EGENERIC, p_aout := p_aout, calls := [Call.Pa_Initialize env.r_Initialize] }
  else
    let p_aout := { p_aout with p_sys := { p_aout.p_sys with i_devices := env.r_GetDeviceCount } }
    let calls := [Call.Pa_Initialize env.r_Initialize, Call.Pa_GetDeviceCount]
    if p_aout.p_sys.i_devices < 0 then
      some (PAOpenDevice_error p_aout calls)
    else
      -- display all devices info
      let shown := List.range p_aout.p_sys.i_devices.toNat
      if shown.all (fun i => (Pa_GetDeviceInfo env (i : Int)).isSome) then
        let calls := calls ++ shown.map (fun i => Call.Pa_GetDeviceInfo (i : Int))
        if p_aout.p_sys.i_device_id ≥ p_aout.p_sys.i_devices then
          some (PAOpenDevice_error p_aout calls)
        else
          let calls := calls ++ [Call.Pa_GetDeviceInfo p_aout.p_sys.i_device_id]
          match Pa_GetDeviceInfo env p_aout.p_sys.i_device_id with
          | none => none
          | some deviceInfo =>
            let p_aout := { p_aout with p_sys := { p_aout.p_sys with deviceInfo := some deviceInfo } }
            if deviceInfo.maxOutputChannels < 1 then
              some (PAOpenDevice_error p_aout calls)
            else
              let p_aout :=
                match p_aout.audio_device with
                | none =>
                  { p_aout with audio_device := some (publishChoices deviceInfo.maxOutputChannels),
                                intf_change := true }
                | some _ => p_aout
              some { ret := VLC_SUCCESS, p_aout := { p_aout with i_format := "fl32" }, calls := calls }
      else none

/-! ## PAOpenStream -/

/-- The fixed table of `PAOpenStream` from the "audio-device" value to the
physical channel mask. -/
def channelMask (i_int : Int) : Nat :=
  if i_int = AOUT_VAR_5_1 then
    AOUT_CHAN_LEFT ||| AOUT_CHAN_RIGHT ||| AOUT_CHAN_CENTER
      ||| AOUT_CHAN_REARLEFT ||| AOUT_CHAN_REARRIGHT ||| AOUT_CHAN_LFE
  else if i_int = AOUT_VAR_3F2R then
    AOUT_CHAN_LEFT ||| AOUT_CHAN_RIGHT ||| AOUT_CHAN_CENTER
      ||| AOUT_CHAN_REARLEFT ||| AOUT_CHAN_REARRIGHT
  else if i_int = AOUT_VAR_2F2R then
    AOUT_CHAN_LEFT ||| AOUT_CHAN_RIGHT ||| AOUT_CHAN_REARLEFT ||| AOUT_CHAN_REARRIGHT
  else if i_int = AOUT_VAR_MONO then
    AOUT_CHAN_CENTER
  else
    AOUT_CHAN_LEFT ||| AOUT_CHAN_RIGHT

/-- Model of `PAOpenStream`. The result is `none` when `p_sys->deviceInfo` is
null where its latency hint is read. -/
def PAOpenStream (env : PaEnv) (p_aout : aout_instance_t) : Option OpenResult :=
  match env.r_var_Get with
  | none => some { ret := VLC_EGENERIC, p_aout := p_aout, calls := [Call.var_Get_audio_device] }
  | some i_int =>
    let p_aout := { p_aout with i_physical_channels := channelMask i_int }
    let i_channels := aout_FormatNbChannels p_aout.i_physical_channels
    -- calculate the frame size in bytes
    let p_aout := { p_aout with p_sys := { p_aout.p_sys with i_sample_size := 4 * i_channels },
                                i_nb_samples := FRAME_SIZE }
    match p_aout.p_sys.deviceInfo with
    | none => none
    | some _ =>
      let calls := [Call.var_Get_audio_device,
                    Call.Pa_OpenStream p_aout.p_sys.i_device_id i_channels FRAME_SIZE env.r_OpenStream]
      if env.r_OpenStream ≠ paNoError then
        some { ret := VLC_EGENERIC,
               p_aout := { p_aout with p_sys := { p_aout.p_sys with p_stream := none } },
               calls := calls }
      else
        let p_aout := { p_aout with p_sys := { p_aout.p_sys with p_stream := some env.stream } }
        let calls := calls ++ [Call.Pa_StartStream p_aout.p_sys.p_stream env.r_StartStream]
        if env.r_StartStream ≠ paNoError then
          some { ret := VLC_EGENERIC, p_aout := p_aout,
                 calls := calls ++ [Call.Pa_CloseStream p_aout.p_sys.p_stream] }
        else
          some { ret := VLC_SUCCESS, p_aout := p_aout, calls := calls }

/-! ## The engine thread -/

/-- The members of `pa_thread_t` (through `VLC_COMMON_MEMBERS`) the plugin uses. -/
structure pa_thread_t where
  b_error : Bool
  b_die : Bool
  deriving DecidableEq, Repr

/-- Where `PORTAUDIOThread` goes after it has raised `vlc_thread_ready`:
`return` (device failure), `goto end` (stream failure), or on to the wait. -/
inductive Resume where
  | exit
  | terminate
  | wait
  deriving DecidableEq, Repr

/-- State of the engine thread: its thread object, the output instance and the
calls it has made so far. -/
structure ThreadResult where
  pa_thread : pa_thread_t
  p_aout : aout_instance_t
  calls : List Call
  deriving DecidableEq, Repr

/-- Lines 237-254 of `PORTAUDIOThread`: device and stream setup, up to and
including `vlc_thread_ready`. -/
def PORTAUDIOThread_setup (env : PaEnv) (pa_thread : pa_thread_t) (p_aout : aout_instance_t) :
    Option (Resume × ThreadResult) :=
  match PAOpenDevice env p_aout with
  | none => none
  | some dev =>
    if dev.ret ≠ VLC_SUCCESS then
      let pa_thread := { pa_thread with b_error := true }
      some (Resume.exit,
        { pa_thread := pa_thread, p_aout := dev.p_aout,
          calls := dev.calls ++ [Call.vlc_thread_ready pa_thread.b_error] })
    else
      match PAOpenStream env dev.p_aout with
      | none => none
      | some str =>
        if str.ret ≠ VLC_SUCCESS then
          let pa_thread := { pa_thread with b_error := true }
          some (Resume.terminate,
            { pa_thread := pa_thread, p_aout := str.p_aout,
              calls := dev.calls ++ str.calls ++ [Call.vlc_thread_ready pa_thread.b_error] })
        else
          -- tell the main thread that we are ready
          some (Resume.wait,
            { pa_thread := pa_thread, p_aout := str.p_aout,
              calls := dev.calls ++ str.calls ++ [Call.vlc_thread_ready pa_thread.b_error] })

/-- Lines 256-279 of `PORTAUDIOThread`: the wait for the stop flag, the stream
teardown and the `end:` label. Under the lock the thread sees the flag as set
when it was set before (`pa_thread.b_die`) or is by then (`env.b_die_at_lock`);
when the wait returns the flag is `env.b_die_after_wait`. -/
def PORTAUDIOThread_resume (env : PaEnv) (next : Resume) (t : ThreadResult) : ThreadResult :=
  match next with
  | Resume.exit => t
  | Resume.terminate => { t with calls := t.calls ++ [Call.Pa_Terminate] }
  | Resume.wait =>
    let b_die := t.pa_thread.b_die || env.b_die_at_lock
    let t : ThreadResult :=
      if !b_die then
        { t with pa_thread := { t.pa_thread with b_die := env.b_die_after_wait },
                 calls := t.calls ++ [Call.vlc_cond_wait env.b_die_after_wait] }
      else
        { t with pa_thread := { t.pa_thread with b_die := b_die } }
    { t with calls := t.calls ++ [Call.Pa_StopStream t.p_aout.p_sys.p_stream,
                                  Call.Pa_CloseStream t.p_aout.p_sys.p_stream,
                                  Call.Pa_Terminate] }

/-- Model of `PORTAUDIOThread`: the whole run of the engine thread. -/
def PORTAUDIOThread (env : PaEnv) (pa_thread : pa_thread_t) (p_aout : aout_instance_t) :
    Option ThreadResult :=
  match PORTAUDIOThread_setup env pa_thread p_aout with
  | none => none
  | some (next, t) => some (PORTAUDIOThread_resume env next t)

/-! ## Open and Close -/

/-- Model of `Close` on the controller thread: set the stop flag under the
lock, signal the condition variable, join the engine thread. -/
def Close (pa_thread : pa_thread_t) : pa_thread_t × List Call :=
  ({ pa_thread with b_die := true }, [Call.vlc_cond_signal, Call.vlc_thread_join])

/-- What `Open` meets: whether `malloc` fails, the configured "portaudio-device",
the collaborators' answers to its own `PAOpenDevice`, whether
`vlc_thread_create` fails, and the answers met by the engine thread. -/
structure OpenEnv where
  malloc_fails : Bool
  portaudio_device : Int
  first : PaEnv
  vlc_thread_create_fails : Bool
  thread : PaEnv
  deriving DecidableEq, Repr

/-- Lines 149-157 of `Open`: the fresh `p_sys` has a null stream and the
configured device index. -/
def Open_p_sys (env : OpenEnv) (p_aout : aout_instance_t) : aout_instance_t :=
  { p_aout with
    p_sys := { p_aout.p_sys with p_stream := none, i_device_id := env.portaudio_device } }

/-- Model of `Open`, with the calls made on the controller thread. The fields of
the fresh `p_sys` that `Open` does not set keep the values of the argument.
`vlc_thread_create` is called with `b_wait` true, so it returns once the engine
thread has raised `vlc_thread_ready`; `Open` then reads the thread's `b_error`. -/
def Open (env : OpenEnv) (p_aout : aout_instance_t) : Option OpenResult :=
  if env.malloc_fails then
    some { ret := VLC_ENOMEM, p_aout := p_aout, calls := [] }
  else
    match PAOpenDevice env.first (Open_p_sys env p_aout) with
    | none => none
    | some dev =>
      if dev.ret ≠ VLC_SUCCESS then
        some { ret := VLC_EGENERIC, p_aout := dev.p_aout, calls := dev.calls }
      else
        -- close device for now, it is re-opened by the thread
        let calls := dev.calls ++ [Call.Pa_Terminate, Call.vlc_thread_create]
        let pa_thread : pa_thread_t := { b_error := false, b_die := false }
        if env.vlc_thread_create_fails then
          some { ret := VLC_EGENERIC, p_aout := dev.p_aout, calls := calls }
        else
          match PORTAUDIOThread_setup env.thread pa_thread dev.p_aout with
          | none => none
          | some (_, t) =>
            if t.pa_thread.b_error then
              some { ret := VLC_EGENERIC, p_aout := t.p_aout, calls := calls ++ (Close t.pa_thread).2 }
            else
              some { ret := VLC_SUCCESS, p_aout := t.p_aout, calls := calls }

/-! ## Observations on lists of calls -/

/-- Is the call a `Pa_Terminate`? -/
def isTerminate : Call → Bool
  | Call.Pa_Terminate => true
  | _ => false

/-- Is the call a `Pa_Initialize`, whatever it answered? -/
def isInitializeCall : Call → Bool
  | Call.Pa_Initialize _ => true
  | _ => false

/-- Is the call a `Pa_Initialize` that answered `paNoError`? -/
def isInitializeOk : Call → Bool
  | Call.Pa_Initialize i_err => i_err == paNoError
  | _ => false

/-- Is the call a `Pa_CloseStream`, on any stream? -/
def isCloseStream : Call → Bool
  | Call.Pa_CloseStream _ => true
  | _ => false

/-- Is the call a `Pa_StopStream`, on any stream? -/
def isStopStream : Call → Bool
  | Call.Pa_StopStream _ => true
  | _ => false

/-- Is the call a `Pa_StartStream`, on any stream? -/
def isStartStream : Call → Bool
  | Call.Pa_StartStream _ _ => true
  | _ => false

/-- Is the call a `vlc_thread_ready`? -/
def isReady : Call → Bool
  | Call.vlc_thread_ready _ => true
  | _ => false

/-- Is the call a `vlc_cond_wait`? -/
def isWait : Call → Bool
  | Call.vlc_cond_wait _ => true
  | _ => false

/-- Occurrences of `Pa_Terminate`. -/
def terminateCount (calls : List Call) : Nat := calls.countP isTerminate

/-- Occurrences of a successful `Pa_Initialize`. -/
def initializeCount (calls : List Call) : Nat := calls.countP isInitializeOk

/-- Occurrences of `Pa_CloseStream`, on any stream. -/
def closeStreamCount (calls : List Call) : Nat := calls.countP isCloseStream

/-- Occurrences of `Pa_StopStream`, on any stream. -/
def stopStreamCount (calls : List Call) : Nat := calls.countP isStopStream

/-- Occurrences of `Pa_StartStream`, on any stream. -/
def startStreamCount (calls : List Call) : Nat := calls.countP isStartStream

/-- Occurrences of `vlc_thread_ready`. -/
def readyCount (calls : List Call) : Nat := calls.countP isReady

/-- Occurrences of `vlc_cond_wait`. -/
def waitCount (calls : List Call) : Nat := calls.countP isWait

/-- The engine's initialisation depth after a list of calls, starting from
`depth`: a successful `Pa_Initialize` adds one, `Pa_Terminate` removes one and
is `none` (a termination with nothing to undo) at depth 0. -/
def engineDepth (depth : Nat) : List Call → Option Nat
  | [] => some depth
  | Call.Pa_Initialize i_err :: rest =>
    if i_err = paNoError then engineDepth (depth + 1) rest else engineDepth depth rest
  | Call.Pa_Terminate :: rest =>
    match depth with
    | 0 => none
    | d + 1 => engineDepth d rest
  | _ :: rest => engineDepth depth rest

/-- The calls of `PAOpenDevice` up to the end of the device display. -/
def displayCalls (env : PaEnv) : List Call :=
  [Call.Pa_Initialize env.r_Initialize, Call.Pa_GetDeviceCount]
    ++ (List.range env.r_GetDeviceCount.toNat).map (fun i => Call.Pa_GetDeviceInfo (i : Int))

/-- The table of the specification: each channel configuration with the least
`maxOutputChannels` that publishes it, in ascending order. -/
def choiceTable : List (Int × Int × String) :=
  [(1, AOUT_VAR_MONO, "Mono"), (2, AOUT_VAR_STEREO, "Stereo"),
   (4, AOUT_VAR_2F2R, "2 Front 2 Rear"), (5, AOUT_VAR_3F2R, "3 Front 2 Rear"),
   (6, AOUT_VAR_5_1, "5.1")]

/-- The entries of `choiceTable` whose threshold is at most `m`, as (value, text). -/
def choicesUpTo (m : Int) : List (Int × String) :=
  (choiceTable.filter (fun e => e.1 ≤ m)).map (fun e => e.2)

/-- A fresh output instance for `env`: nothing published. -/
def aout0 (i_device_id : Int) : aout_instance_t :=
  { p_sys := { p_stream := none, i_devices := 0, i_sample_size := 0,
               i_device_id := i_device_id, deviceInfo := none },
    i_format := "", i_physical_channels := 0, i_nb_samples := 0,
    audio_device := none, intf_change := false }

/-- An environment in which every native call succeeds on `devices`, the
"audio-device" value is `v`, and the thread is woken by `Close`. -/
def envOk (devices : List PaDeviceInfo) (v : Int) : PaEnv :=
  { r_Initialize := paNoError, r_GetDeviceCount := devices.length, devices := devices,
    r_var_Get := some v, r_OpenStream := paNoError, stream := 7, r_StartStream := paNoError,
    b_die_at_lock := false, b_die_after_wait := true }

/-- A `p_sys` configured with sample size `s`. -/
def sysOf (s : Int) : aout_sys_t :=
  { p_stream := none, i_devices := 1, i_sample_size := s, i_device_id := 0, deviceInfo := none }

/-- An underrun request: 2 frames into a 17-byte buffer. -/
def underrun2 : Invocation :=
  { next := none, outputBuffer := List.replicate 17 255, framesPerBuffer := 2 }

/-- A six-channel sound card. -/
def card6 : PaDeviceInfo := { name := "card", maxInputChannels := 2, maxOutputChannels := 6 }

/-- A one-channel output device. -/
def card1 : PaDeviceInfo := { name := "mono", maxInputChannels := 0, maxOutputChannels := 1 }

/-- The instance `a` with another requested device index. -/
def withDevice (a : aout_instance_t) (i_device_id : Int) : aout_instance_t :=
  { a with p_sys := { a.p_sys with i_device_id := i_device_id } }

/-- An instance on which `PAOpenDevice` has selected device 0, `d`. -/
def selected (d : PaDeviceInfo) : aout_instance_t :=
  { aout0 0 with p_sys := { (aout0 0).p_sys with i_devices := 1, deviceInfo := some d },
                 i_format := "fl32" }

/-- A fresh thread object, as `vlc_object_create` returns it. -/
def thread0 : pa_thread_t := { b_error := false, b_die := false }

/-- An environment in which every native call succeeds and the condition wait
returns while the stop flag is still false (a wake-up that is not `Close`'s). -/
def envSpurious : PaEnv := { envOk [card6] AOUT_VAR_STEREO with b_die_after_wait := false }

/-- An environment in which `Pa_OpenStream` succeeds and `Pa_StartStream` fails. -/
def envStartFails : PaEnv := { envOk [card6] AOUT_VAR_STEREO with r_StartStream := -9999 }

/-- An environment in which `Pa_OpenStream` fails. -/
def envOpenFails : PaEnv := { envOk [card6] AOUT_VAR_STEREO with r_OpenStream := -9996 }

/-- What a successful `PAOpenDevice` leaves on the six-channel card, first call. -/
def opened6 : OpenResult :=
  (PAOpenDevice (envOk [card6] AOUT_VAR_STEREO) (aout0 0)).getD
    { ret := VLC_EGENERIC, p_aout := aout0 0, calls := [] }

/-- The whole run of the engine thread on the six-channel card, woken by `Close`. -/
def ran6 : ThreadResult :=
  (PORTAUDIOThread (envOk [card6] AOUT_VAR_STEREO) thread0 (aout0 0)).getD
    { pa_thread := thread0, p_aout := aout0 0, calls := [] }

/-- The whole run of the engine thread when `Pa_StartStream` fails. -/
def ranStartFails : ThreadResult :=
  (PORTAUDIOThread envStartFails thread0 (aout0 0)).getD
    { pa_thread := thread0, p_aout := aout0 0, calls := [] }

/-- An `Open` in which everything succeeds on the six-channel card. -/
def openEnvOk : OpenEnv :=
  { malloc_fails := false, portaudio_device := 0, first := envOk [card6] AOUT_VAR_STEREO,
    vlc_thread_create_fails := false, thread := envOk [card6] AOUT_VAR_STEREO }

/-- What `PAOpenDevice` returns for index 3 on an engine with one device. -/
def rejected3 : OpenResult :=
  (PAOpenDevice (envOk [card6] AOUT_VAR_STEREO) (aout0 3)).getD
    { ret := VLC_SUCCESS, p_aout := aout0 3, calls := [] }

/-- An input-only device. -/
def mic : PaDeviceInfo := { name := "mic", maxInputChannels := 1, maxOutputChannels := 0 }

/-- The instance after `PAOpenStream` has configured the format for the
"audio-device" value `i_int`: channel mask, sample size, samples per period. -/
def configured (a : aout_instance_t) (i_int : Int) : aout_instance_t :=
  { a with i_physical_channels := channelMask i_int,
           p_sys := { a.p_sys with i_sample_size := 4 * aout_FormatNbChannels (channelMask i_int) },
           i_nb_samples := FRAME_SIZE }

/-- The instance `a` with the stream handle `p_stream`. -/
def withStream (a : aout_instance_t) (p_stream : PaStream) : aout_instance_t :=
  { a with p_sys := { a.p_sys with p_stream := p_stream } }

/-- The `Pa_OpenStream` call `PAOpenStream` makes for the "audio-device" value `i_int`. -/
def openStreamCall (env : PaEnv) (a : aout_instance_t) (i_int : Int) : Call :=
  Call.Pa_OpenStream a.p_sys.i_device_id (aout_FormatNbChannels (channelMask i_int)) FRAME_SIZE
    env.r_OpenStream

/-! ## Theorems: the real-time callback -/

/-- An `int` that is a natural number below `2 ^ w` converts to itself. -/
theorem toULong_natCast (w s : Nat) (h : s < 2 ^ w) : toULong w (s : Int) = s := by
  unfold toULong
  have h2 : ((s : Int) % (2 ^ w : Int)) = ((s % 2 ^ w : Nat) : Int) := by push_cast; rfl
  rw [h2, Int.toNat_natCast, Nat.mod_eq_of_lt h]

/-- The byte count does not wrap when `n * s` is representable in `unsigned long`. -/
theorem byteCount_eq (w n s : Nat) (h : n * s < 2 ^ w) : byteCount w n (s : Int) = n * s := by
  unfold byteCount
  rcases Nat.eq_zero_or_pos n with hn | hn
  · subst hn; simp
  · have hs : s < 2 ^ w := lt_of_le_of_lt (Nat.le_mul_of_pos_left s hn) h
    rw [toULong_natCast w s hs, Nat.mod_eq_of_lt h]

/-- One underrun invocation: the fill succeeds and zeroes exactly `n * s` bytes. -/
theorem paCallback_none (w : Nat) (p_sys : aout_sys_t) (n s : Nat) (out : List Byte)
    (hs : p_sys.i_sample_size = (s : Int)) (hlen : n * s ≤ out.length)
    (hmem : out.length < 2 ^ w) :
    paCallback w p_sys none out n =
      some { ret := 0, outputBuffer := List.replicate (n * s) 0 ++ out.drop (n * s),
             calls := [Call.aout_OutputNextBuffer, Call.pf_memset (n * s)] } := by
  have hb : byteCount w n p_sys.i_sample_size = n * s := by
    rw [hs]; exact byteCount_eq w n s (lt_of_le_of_lt hlen hmem)
  simp [paCallback, pf_memset, hb, hlen]

/-- C1. Underrun emits silence: when the pipeline returns no frame, for every
sample size `s` and every run of consecutive invocations (any number of them,
each with its own frame count `n` and an output buffer that holds `n * s`
bytes), every invocation returns 0, leaves the output buffer with exactly its
first `n * s` bytes set to zero and the rest untouched, and releases no frame:
the only calls are the frame request and the fill. -/
theorem paCallback_underrun_silence (w : Nat) (p_sys : aout_sys_t) (s : Nat)
    (invs : List Invocation)
    (hs : p_sys.i_sample_size = (s : Int))
    (hinv : ∀ inv ∈ invs, inv.next = none ∧
      inv.framesPerBuffer * s ≤ inv.outputBuffer.length ∧ inv.outputBuffer.length < 2 ^ w) :
    runCallbacks w p_sys invs =
      invs.map (fun inv => some
        { ret := 0,
          outputBuffer := List.replicate (inv.framesPerBuffer * s) 0
            ++ inv.outputBuffer.drop (inv.framesPerBuffer * s),
          calls := [Call.aout_OutputNextBuffer, Call.pf_memset (inv.framesPerBuffer * s)] })
    ∧ ∀ r, some r ∈ runCallbacks w p_sys invs → r.ret = 0 ∧ freeCount r.calls = 0 := by
  have key : runCallbacks w p_sys invs =
      invs.map (fun inv => some
        { ret := 0,
          outputBuffer := List.replicate (inv.framesPerBuffer * s) 0
            ++ inv.outputBuffer.drop (inv.framesPerBuffer * s),
          calls := [Call.aout_OutputNextBuffer, Call.pf_memset (inv.framesPerBuffer * s)] }) := by
    unfold runCallbacks
    apply List.map_congr_left
    intro inv hmem
    obtain ⟨h1, h2, h3⟩ := hinv inv hmem
    rw [h1]
    exact paCallback_none w p_sys inv.framesPerBuffer s inv.outputBuffer hs h2 h3
  refine ⟨key, ?_⟩
  intro r hr
  rw [key, List.mem_map] at hr
  obtain ⟨inv, _, hinv2⟩ := hr
  have := Option.some.inj hinv2
  subst this
  exact ⟨rfl, rfl⟩

/-- Witness for C1: 10,000 consecutive underruns of 2 stereo frames (8 bytes
each) into a 17-byte buffer, on a 64-bit `unsigned long`. -/
theorem paCallback_underrun_silence_witness :
    runCallbacks 64 (sysOf 8) (List.replicate 10000 underrun2) =
      (List.replicate 10000 underrun2).map
        (fun inv => some
          { ret := 0,
            outputBuffer := List.replicate (inv.framesPerBuffer * 8) 0
              ++ inv.outputBuffer.drop (inv.framesPerBuffer * 8),
            calls := [Call.aout_OutputNextBuffer, Call.pf_memset (inv.framesPerBuffer * 8)] })
    ∧ ∀ r, some r ∈ runCallbacks 64 (sysOf 8) (List.replicate 10000 underrun2) →
        r.ret = 0 ∧ freeCount r.calls = 0 :=
  paCallback_underrun_silence 64 _ 8 _ rfl
    (fun inv h => by rw [List.eq_of_mem_replicate h]; decide)

/-- C2. Frame copy is exact: when the pipeline returns a frame whose buffer holds
at least `n * s` bytes (and the output buffer holds `n * s` bytes), `paCallback`
returns 0, the first `n * s` bytes of the output buffer equal the first `n * s`
bytes of the frame, the rest of the output buffer is untouched, and the calls
are, in order, the frame request, the copy of `n * s` bytes, and one release of
that frame. -/
theorem paCallback_copies_frame (w : Nat) (p_sys : aout_sys_t) (n s : Nat) (out : List Byte)
    (frame : aout_buffer_t)
    (hs : p_sys.i_sample_size = (s : Int))
    (hframe : n * s ≤ frame.p_buffer.length)
    (hout : n * s ≤ out.length) (hmem : out.length < 2 ^ w) :
    ∃ r, paCallback w p_sys (some frame) out n = some r ∧ r.ret = 0 ∧
      r.outputBuffer.take (n * s) = frame.p_buffer.take (n * s) ∧
      r.outputBuffer.drop (n * s) = out.drop (n * s) ∧
      r.outputBuffer.length = out.length ∧
      r.calls = [Call.aout_OutputNextBuffer, Call.pf_memcpy (n * s), Call.aout_BufferFree frame] ∧
      freeCount r.calls = 1 := by
  have hb : byteCount w n p_sys.i_sample_size = n * s := by
    rw [hs]; exact byteCount_eq w n s (lt_of_le_of_lt hout hmem)
  have hl : (frame.p_buffer.take (n * s)).length = n * s := by
    rw [List.length_take]; exact Nat.min_eq_left hframe
  refine ⟨{ ret := 0, outputBuffer := frame.p_buffer.take (n * s) ++ out.drop (n * s),
            calls := [Call.aout_OutputNextBuffer, Call.pf_memcpy (n * s),
                      Call.aout_BufferFree frame] }, ?_, rfl, ?_, ?_, ?_, rfl, ?_⟩
  · simp [paCallback, pf_memcpy, hb, hout, hframe]
  · show (frame.p_buffer.take (n * s) ++ out.drop (n * s)).take (n * s) = _
    rw [List.take_append_of_le_length (le_of_eq hl.symm), List.take_of_length_le (le_of_eq hl)]
  · show (frame.p_buffer.take (n * s) ++ out.drop (n * s)).drop (n * s) = _
    rw [List.drop_append_of_le_length (le_of_eq hl.symm), List.drop_of_length_le (le_of_eq hl)]
    rfl
  · show (frame.p_buffer.take (n * s) ++ out.drop (n * s)).length = _
    rw [List.length_append, hl, List.length_drop]; omega
  · simp [freeCount, List.countP_cons]

/-- Witness for C2: one mono frame count of 2 (4 bytes each) copied from a
9-byte frame into a 10-byte buffer. -/
theorem paCallback_copies_frame_witness :
    ∃ r, paCallback 64 (sysOf 4)
        (some { p_buffer := [1, 2, 3, 4, 5, 6, 7, 8, 9] }) [0, 0, 0, 0, 0, 0, 0, 0, 77, 78] 2
        = some r ∧ r.ret = 0 ∧
      r.outputBuffer.take (2 * 4) = [1, 2, 3, 4, 5, 6, 7, 8, 9].take (2 * 4) ∧
      r.outputBuffer.drop (2 * 4) = [0, 0, 0, 0, 0, 0, 0, 0, 77, 78].drop (2 * 4) ∧
      r.outputBuffer.length = [0, 0, 0, 0, 0, 0, 0, 0, 77, 78].length ∧
      r.calls = [Call.aout_OutputNextBuffer, Call.pf_memcpy (2 * 4),
                 Call.aout_BufferFree { p_buffer := [1, 2, 3, 4, 5, 6, 7, 8, 9] }] ∧
      freeCount r.calls = 1 :=
  paCallback_copies_frame 64 _ 2 4 _ { p_buffer := [1, 2, 3, 4, 5, 6, 7, 8, 9] } rfl
    (by decide) (by decide) (by decide)

/-! ## Theorems: PAOpenDevice -/

/-- When the engine reports as many devices as it has, the display loop meets
no null descriptor. -/
theorem display_ok (env : PaEnv) (hcount : env.r_GetDeviceCount = env.devices.length) :
    (List.range env.r_GetDeviceCount.toNat).all
      (fun i => (Pa_GetDeviceInfo env (i : Int)).isSome) = true := by
  rw [List.all_eq_true]
  intro i hi
  rw [List.mem_range, hcount, Int.toNat_natCast] at hi
  have h0 : ¬ ((i : Int) < 0) := by omega
  simp only [Pa_GetDeviceInfo, h0, if_false, Int.toNat_natCast]
  rw [List.get?_eq_get hi]
  rfl

/-- `PAOpenDevice` on an index at or past the device count. -/
theorem PAOpenDevice_out_of_range (env : PaEnv) (a : aout_instance_t)
    (hinit : env.r_Initialize = paNoError)
    (hcount : env.r_GetDeviceCount = env.devices.length)
    (hi : env.r_GetDeviceCount ≤ a.p_sys.i_device_id) :
    PAOpenDevice env a = some
      { ret := VLC_EGENERIC,
        p_aout := { a with p_sys := { a.p_sys with i_devices := env.r_GetDeviceCount } },
        calls := displayCalls env ++ [Call.Pa_Terminate] } := by
  have hneg : ¬ (env.r_GetDeviceCount < 0) := by rw [hcount]; omega
  have hall := display_ok env hcount
  unfold PAOpenDevice
  simp only [hinit, ne_eq, not_true_eq_false, if_false, hneg, hall, if_true, ge_iff_le, hi,
    PAOpenDevice_error, displayCalls]

/-- `PAOpenDevice` on an index that selects the device `d`. -/
theorem PAOpenDevice_selected (env : PaEnv) (a : aout_instance_t) (d : PaDeviceInfo)
    (hinit : env.r_Initialize = paNoError)
    (hcount : env.r_GetDeviceCount = env.devices.length)
    (h0 : 0 ≤ a.p_sys.i_device_id)
    (hd : env.devices.get? a.p_sys.i_device_id.toNat = some d) :
    PAOpenDevice env a = some
      (if d.maxOutputChannels < 1 then
        { ret := VLC_EGENERIC,
          p_aout := { a with p_sys := { a.p_sys with i_devices := env.r_GetDeviceCount,
                                                     deviceInfo := some d } },
          calls := displayCalls env ++ [Call.Pa_GetDeviceInfo a.p_sys.i_device_id,
                                        Call.Pa_Terminate] }
      else
        { ret := VLC_SUCCESS,
          p_aout :=
            { a with p_sys := { a.p_sys with i_devices := env.r_GetDeviceCount,
                                             deviceInfo := some d },
                     i_format := "fl32",
                     audio_device := some (match a.audio_device with
                       | none => publishChoices d.maxOutputChannels
                       | some v => v),
                     intf_change := (match a.audio_device with
                       | none => true
                       | some _ => a.intf_change) },
          calls := displayCalls env ++ [Call.Pa_GetDeviceInfo a.p_sys.i_device_id] }) := by
  have hneg : ¬ (env.r_GetDeviceCount < 0) := by rw [hcount]; omega
  have hall := display_ok env hcount
  have hlt : a.p_sys.i_device_id.toNat < env.devices.length := by
    by_contra hge
    rw [List.get?_eq_none.mpr (Nat.le_of_not_lt hge)] at hd
    exact Option.noConfusion hd
  have hrange : ¬ (env.r_GetDeviceCount ≤ a.p_sys.i_device_id) := by rw [hcount]; omega
  have hinfo : Pa_GetDeviceInfo env a.p_sys.i_device_id = some d := by
    simp only [Pa_GetDeviceInfo, not_lt.mpr h0, if_false, hd]
  unfold PAOpenDevice
  simp only [hinit, ne_eq, not_true_eq_false, if_false, hneg, hall, if_true, ge_iff_le, hrange,
    hinfo, PAOpenDevice_error, displayCalls]
  by_cases hm : d.maxOutputChannels < 1
  · simp [hm]
  · cases hv : a.audio_device <;> simp [hm]

/-- What lines 338-385 publish, by the class of `maxOutputChannels`. -/
theorem publishChoices_cases (m : Int) :
    (m < 1 ∧ (publishChoices m).choices = [] ∧ (publishChoices m).defaultChoice = none) ∨
    (m = 1 ∧ (publishChoices m).choices = [(AOUT_VAR_MONO, "Mono")] ∧
      (publishChoices m).defaultChoice = none) ∨
    ((m = 2 ∨ m = 3) ∧
      (publishChoices m).choices = [(AOUT_VAR_MONO, "Mono"), (AOUT_VAR_STEREO, "Stereo")] ∧
      (publishChoices m).defaultChoice = some AOUT_VAR_STEREO) ∨
    (m = 4 ∧
      (publishChoices m).choices = [(AOUT_VAR_MONO, "Mono"), (AOUT_VAR_STEREO, "Stereo"),
        (AOUT_VAR_2F2R, "2 Front 2 Rear")] ∧
      (publishChoices m).defaultChoice = some AOUT_VAR_STEREO) ∨
    (m = 5 ∧
      (publishChoices m).choices = [(AOUT_VAR_MONO, "Mono"), (AOUT_VAR_STEREO, "Stereo"),
        (AOUT_VAR_2F2R, "2 Front 2 Rear"), (AOUT_VAR_3F2R, "3 Front 2 Rear")] ∧
      (publishChoices m).defaultChoice = some AOUT_VAR_STEREO) ∨
    (6 ≤ m ∧
      (publishChoices m).choices = [(AOUT_VAR_MONO, "Mono"), (AOUT_VAR_STEREO, "Stereo"),
        (AOUT_VAR_2F2R, "2 Front 2 Rear"), (AOUT_VAR_3F2R, "3 Front 2 Rear"),
        (AOUT_VAR_5_1, "5.1")] ∧
      (publishChoices m).defaultChoice = some AOUT_VAR_STEREO) := by
  have hc : m < 1 ∨ m = 1 ∨ (m = 2 ∨ m = 3) ∨ m = 4 ∨ m = 5 ∨ 6 ≤ m := by omega
  rcases hc with h | h | h | h | h | h
  · left
    have h1 : ¬ (1 ≤ m) := by omega
    have h2 : ¬ (2 ≤ m) := by omega
    have h4 : ¬ (4 ≤ m) := by omega
    have h5 : ¬ (5 ≤ m) := by omega
    have h6 : ¬ (6 ≤ m) := by omega
    simp [publishChoices, h, h1, h2, h4, h5, h6]
  · right; left
    subst h
    exact ⟨rfl, by decide, by decide⟩
  · right; right; left
    rcases h with h | h <;> subst h <;> exact ⟨by simp, by decide, by decide⟩
  · right; right; right; left
    subst h
    exact ⟨rfl, by decide, by decide⟩
  · right; right; right; right; left
    subst h
    exact ⟨rfl, by decide, by decide⟩
  · right; right; right; right; right
    have h1 : 1 ≤ m := by omega
    have h2 : 2 ≤ m := by omega
    have h4 : 4 ≤ m := by omega
    have h5 : 5 ≤ m := by omega
    simp [publishChoices, h, h1, h2, h4, h5, var_AddChoice, var_SetDefault]

/-- The published choices are the entries of the specification's table whose
threshold is reached. -/
theorem publishChoices_choices (m : Int) : (publishChoices m).choices = choicesUpTo m := by
  rcases publishChoices_cases m with h | h | h | h | h | h
  · have h1 : ¬ (1 ≤ m) := by omega
    have h2 : ¬ (2 ≤ m) := by omega
    have h4 : ¬ (4 ≤ m) := by omega
    have h5 : ¬ (5 ≤ m) := by omega
    have h6 : ¬ (6 ≤ m) := by omega
    rw [h.2.1]; simp [choicesUpTo, choiceTable, List.filter_cons, h1, h2, h4, h5, h6]
  · rw [h.2.1, h.1]; decide
  · rcases h.1 with h' | h' <;> rw [h.2.1, h'] <;> decide
  · rw [h.2.1, h.1]; decide
  · rw [h.2.1, h.1]; decide
  · have h1 : 1 ≤ m := by omega
    have h2 : 2 ≤ m := by omega
    have h4 : 4 ≤ m := by omega
    have h5 : 5 ≤ m := by omega
    rw [h.2.1]; simp [choicesUpTo, choiceTable, List.filter_cons, h.1, h1, h2, h4, h5]

/-- The default is Stereo exactly when Stereo is published. -/
theorem publishChoices_default (m : Int) :
    (publishChoices m).defaultChoice = if 2 ≤ m then some AOUT_VAR_STEREO else none := by
  rcases publishChoices_cases m with h | h | h | h | h | h
  · rw [h.2.2, if_neg (by omega)]
  · rw [h.2.2, if_neg (by omega)]
  · rw [h.2.2, if_pos (by omega)]
  · rw [h.2.2, if_pos (by omega)]
  · rw [h.2.2, if_pos (by omega)]
  · rw [h.2.2, if_pos (by omega)]

/-- A more capable device publishes an extension of the list of a less capable one. -/
theorem publishChoices_mono (m m' : Int) (h : m ≤ m') :
    (publishChoices m).choices <+: (publishChoices m').choices := by
  rcases publishChoices_cases m with a | a | a | a | a | a <;>
  rcases publishChoices_cases m' with b | b | b | b | b | b <;>
  first
  | (exfalso; omega)
  | (rw [a.2.1, b.2.1]; done)
  | (rw [a.2.1, b.2.1]; exact List.prefix_append _ [_])
  | (rw [a.2.1, b.2.1]; exact List.prefix_append _ [_, _])
  | (rw [a.2.1, b.2.1]; exact List.prefix_append _ [_, _, _])
  | (rw [a.2.1, b.2.1]; exact List.prefix_append _ [_, _, _, _])
  | (rw [a.2.1, b.2.1]; exact List.prefix_append _ [_, _, _, _, _])

/-- Once initialisation succeeds, `PAOpenDevice` does not depend on the device
count left in `p_sys` by an earlier call. -/
theorem PAOpenDevice_i_devices (env : PaEnv) (a : aout_instance_t) (c : Int)
    (hinit : env.r_Initialize = paNoError) :
    PAOpenDevice env { a with p_sys := { a.p_sys with i_devices := c } } = PAOpenDevice env a := by
  unfold PAOpenDevice
  simp only [hinit, ne_eq, not_true_eq_false, if_false]

/-- Device queries are invisible to a count that does not look at them. -/
theorem countP_deviceInfo (p : Call → Bool) (hp : ∀ i, p (Call.Pa_GetDeviceInfo i) = false)
    (l : List Int) : (l.map Call.Pa_GetDeviceInfo).countP p = 0 := by
  rw [List.countP_eq_zero]
  intro c hc
  obtain ⟨i, _, hi⟩ := List.mem_map.mp hc
  rw [← hi, hp]
  exact Bool.false_ne_true

/-- Device queries do not change the engine's depth. -/
theorem engineDepth_deviceInfo (l : List Int) (rest : List Call) (k : Nat) :
    engineDepth k (l.map Call.Pa_GetDeviceInfo ++ rest) = engineDepth k rest := by
  induction l with
  | nil => rfl
  | cons x xs ih =>
    simp only [List.map_cons, List.cons_append, engineDepth]
    exact ih

/-- The display calls are the two opening calls and device queries. -/
theorem displayCalls_eq (env : PaEnv) :
    displayCalls env = [Call.Pa_Initialize env.r_Initialize, Call.Pa_GetDeviceCount]
      ++ ((List.range env.r_GetDeviceCount.toNat).map (fun i => (i : Int))).map
          Call.Pa_GetDeviceInfo := by
  simp [displayCalls, List.map_map, Function.comp_def]

/-- The calls of `PAOpenDevice` before its last ones leave the engine one level deeper. -/
theorem engineDepth_displayCalls (env : PaEnv) (hinit : env.r_Initialize = paNoError)
    (d : Nat) (rest : List Call) :
    engineDepth d (displayCalls env ++ rest) = engineDepth (d + 1) rest := by
  rw [displayCalls_eq]
  simp only [List.cons_append, List.nil_append, engineDepth, hinit, if_true, List.append_assoc]
  exact engineDepth_deviceInfo _ _ _

/-- Counting `Pa_Terminate` and successful `Pa_Initialize` in the display calls. -/
theorem count_displayCalls (env : PaEnv) (hinit : env.r_Initialize = paNoError) :
    terminateCount (displayCalls env) = 0 ∧ initializeCount (displayCalls env) = 1 := by
  rw [displayCalls_eq]
  unfold terminateCount initializeCount
  rw [List.countP_append, List.countP_append, countP_deviceInfo isTerminate (fun _ => rfl),
    countP_deviceInfo isInitializeOk (fun _ => rfl), hinit]
  exact ⟨by decide, by decide⟩

/-- C3 (amended). Channel-choice publication follows the thresholds: for a
selected device with `maxOutputChannels = m ≥ 1` and "audio-device" not yet
created, `PAOpenDevice` succeeds and publishes exactly the entries of the table
[Mono (1), Stereo (2), 2F2R (4), 3F2R (5), 5.1 (6)] whose threshold is at most
`m`, in that order; Stereo is marked as the default when `m ≥ 2` and no default
is marked when `m = 1`; for `m = 6` the list is all five with Stereo default;
and the list is a prefix of the list published for any device with `m' ≥ m`. -/
theorem PAOpenDevice_publishes_choices (env : PaEnv) (a : aout_instance_t) (d : PaDeviceInfo)
    (hinit : env.r_Initialize = paNoError)
    (hcount : env.r_GetDeviceCount = env.devices.length)
    (h0 : 0 ≤ a.p_sys.i_device_id)
    (hd : env.devices.get? a.p_sys.i_device_id.toNat = some d)
    (hm : 1 ≤ d.maxOutputChannels)
    (hvar : a.audio_device = none) :
    ∃ r v, PAOpenDevice env a = some r ∧ r.ret = VLC_SUCCESS ∧
      r.p_aout.audio_device = some v ∧
      v.choices = choicesUpTo d.maxOutputChannels ∧
      v.defaultChoice = (if 2 ≤ d.maxOutputChannels then some AOUT_VAR_STEREO else none) ∧
      (d.maxOutputChannels = 6 →
        v.choices = [(AOUT_VAR_MONO, "Mono"), (AOUT_VAR_STEREO, "Stereo"),
          (AOUT_VAR_2F2R, "2 Front 2 Rear"), (AOUT_VAR_3F2R, "3 Front 2 Rear"),
          (AOUT_VAR_5_1, "5.1")] ∧ v.defaultChoice = some AOUT_VAR_STEREO) ∧
      (∀ (env' : PaEnv) (a' : aout_instance_t) (d' : PaDeviceInfo),
        env'.r_Initialize = paNoError → env'.r_GetDeviceCount = env'.devices.length →
        0 ≤ a'.p_sys.i_device_id → env'.devices.get? a'.p_sys.i_device_id.toNat = some d' →
        a'.audio_device = none → d.maxOutputChannels ≤ d'.maxOutputChannels →
        ∃ r' v', PAOpenDevice env' a' = some r' ∧ r'.p_aout.audio_device = some v' ∧
          v.choices <+: v'.choices) := by
  have hnot : ¬ (d.maxOutputChannels < 1) := by omega
  refine ⟨_, publishChoices d.maxOutputChannels,
    PAOpenDevice_selected env a d hinit hcount h0 hd, ?_, ?_,
    publishChoices_choices _, publishChoices_default _, ?_, ?_⟩
  · rw [if_neg hnot]
  · rw [if_neg hnot]; simp only [hvar]
  · intro h6
    rw [publishChoices_choices, publishChoices_default, h6]
    exact ⟨by decide, by decide⟩
  · intro env' a' d' hinit' hcount' h0' hd' hvar' hle
    have hnot' : ¬ (d'.maxOutputChannels < 1) := by omega
    refine ⟨_, publishChoices d'.maxOutputChannels,
      PAOpenDevice_selected env' a' d' hinit' hcount' h0' hd', ?_, publishChoices_mono _ _ hle⟩
    rw [if_neg hnot']; simp only [hvar']

/-- Witness for C3: the six-channel card, first call. -/
theorem PAOpenDevice_publishes_choices_witness :
    ∃ r v, PAOpenDevice (envOk [card6] 0) (aout0 0) = some r ∧ r.ret = VLC_SUCCESS ∧
      r.p_aout.audio_device = some v ∧
      v.choices = choicesUpTo card6.maxOutputChannels ∧
      v.defaultChoice = (if 2 ≤ card6.maxOutputChannels then some AOUT_VAR_STEREO else none) ∧
      (card6.maxOutputChannels = 6 →
        v.choices = [(AOUT_VAR_MONO, "Mono"), (AOUT_VAR_STEREO, "Stereo"),
          (AOUT_VAR_2F2R, "2 Front 2 Rear"), (AOUT_VAR_3F2R, "3 Front 2 Rear"),
          (AOUT_VAR_5_1, "5.1")] ∧ v.defaultChoice = some AOUT_VAR_STEREO) ∧
      (∀ (env' : PaEnv) (a' : aout_instance_t) (d' : PaDeviceInfo),
        env'.r_Initialize = paNoError → env'.r_GetDeviceCount = env'.devices.length →
        0 ≤ a'.p_sys.i_device_id → env'.devices.get? a'.p_sys.i_device_id.toNat = some d' →
        a'.audio_device = none → card6.maxOutputChannels ≤ d'.maxOutputChannels →
        ∃ r' v', PAOpenDevice env' a' = some r' ∧ r'.p_aout.audio_device = some v' ∧
          v.choices <+: v'.choices) :=
  PAOpenDevice_publishes_choices (envOk [card6] 0) (aout0 0) card6 rfl rfl (by decide) rfl
    (by decide) rfl

/-- Counterexample to C3 as stated: a device with one output channel gets Mono
published and no default at all, so Stereo is not marked as the default. -/
theorem PAOpenDevice_one_channel_no_default :
    (envOk [card1] 0).r_Initialize = paNoError ∧ card1.maxOutputChannels = 1 ∧
    (aout0 0).audio_device = none ∧
    ∃ r v, PAOpenDevice (envOk [card1] 0) (aout0 0) = some r ∧ r.ret = VLC_SUCCESS ∧
      r.p_aout.audio_device = some v ∧ v.choices = [(AOUT_VAR_MONO, "Mono")] ∧
      v.defaultChoice = none ∧ v.defaultChoice ≠ some AOUT_VAR_STEREO :=
  ⟨rfl, rfl, rfl, _, _, rfl, by decide, rfl, by decide, by decide, by decide⟩

/-- C4. An out-of-range device is rejected cleanly: when `Pa_Initialize` and
`Pa_GetDeviceCount` succeed with device count `c` and the requested index is
at least `c`, `PAOpenDevice` returns `VLC_EGENERIC`, leaves "audio-device" and
"intf-change" as they were (no channel choice is published), makes one
successful `Pa_Initialize` and exactly one `Pa_Terminate`, its last call, so
the engine is back at the depth it started from; and a subsequent call whose
initialisation succeeds, on any index, returns exactly what it would have
returned had the failed call not happened. -/
theorem PAOpenDevice_rejects_out_of_range (env : PaEnv) (a : aout_instance_t)
    (hinit : env.r_Initialize = paNoError)
    (hcount : env.r_GetDeviceCount = env.devices.length)
    (hi : env.r_GetDeviceCount ≤ a.p_sys.i_device_id) :
    ∃ r, PAOpenDevice env a = some r ∧ r.ret = VLC_EGENERIC ∧
      r.p_aout.audio_device = a.audio_device ∧ r.p_aout.intf_change = a.intf_change ∧
      initializeCount r.calls = 1 ∧ terminateCount r.calls = 1 ∧
      r.calls.getLast? = some Call.Pa_Terminate ∧
      (∀ depth, engineDepth depth r.calls = some depth) ∧
      (∀ (env2 : PaEnv) (j : Int), env2.r_Initialize = paNoError →
        PAOpenDevice env2 (withDevice r.p_aout j) = PAOpenDevice env2 (withDevice a j)) := by
  refine ⟨_, PAOpenDevice_out_of_range env a hinit hcount hi, rfl, rfl, rfl, ?_, ?_, ?_, ?_, ?_⟩
  · show initializeCount (displayCalls env ++ [Call.Pa_Terminate]) = 1
    have h := (count_displayCalls env hinit).2
    unfold initializeCount at h ⊢
    rw [List.countP_append, h]
    decide
  · show terminateCount (displayCalls env ++ [Call.Pa_Terminate]) = 1
    have h := (count_displayCalls env hinit).1
    unfold terminateCount at h ⊢
    rw [List.countP_append, h]
    decide
  · show (displayCalls env ++ [Call.Pa_Terminate]).getLast? = some Call.Pa_Terminate
    rw [List.getLast?_append]
    rfl
  · intro depth
    show engineDepth depth (displayCalls env ++ [Call.Pa_Terminate]) = some depth
    rw [engineDepth_displayCalls env hinit]
    rfl
  · intro env2 j hinit2
    exact PAOpenDevice_i_devices env2 (withDevice a j) env.r_GetDeviceCount hinit2

/-- Witness for C4: index 3 on an engine with one device, then index 0. -/
theorem PAOpenDevice_rejects_out_of_range_witness :
    ∃ r, PAOpenDevice (envOk [card6] 0) (aout0 3) = some r ∧ r.ret = VLC_EGENERIC ∧
      r.p_aout.audio_device = (aout0 3).audio_device ∧
      r.p_aout.intf_change = (aout0 3).intf_change ∧
      initializeCount r.calls = 1 ∧ terminateCount r.calls = 1 ∧
      r.calls.getLast? = some Call.Pa_Terminate ∧
      (∀ depth, engineDepth depth r.calls = some depth) ∧
      (∀ (env2 : PaEnv) (j : Int), env2.r_Initialize = paNoError →
        PAOpenDevice env2 (withDevice r.p_aout j) = PAOpenDevice env2 (withDevice (aout0 3) j)) :=
  PAOpenDevice_rejects_out_of_range (envOk [card6] 0) (aout0 3) rfl rfl (by decide)

/-- C5 (amended). A valid device index: when `Pa_Initialize` and
`Pa_GetDeviceCount` succeed with device count `c`, for every requested index
`i` with `0 ≤ i < c`, `PAOpenDevice` returns, `p_sys->deviceInfo` is the
descriptor of device `i`, and the return code is `VLC_SUCCESS` exactly when
that descriptor has `maxOutputChannels ≥ 1`; otherwise it is `VLC_EGENERIC`. -/
theorem PAOpenDevice_valid_index (env : PaEnv) (a : aout_instance_t)
    (hinit : env.r_Initialize = paNoError)
    (hcount : env.r_GetDeviceCount = env.devices.length)
    (h0 : 0 ≤ a.p_sys.i_device_id)
    (hlt : a.p_sys.i_device_id < env.r_GetDeviceCount) :
    ∃ r d, PAOpenDevice env a = some r ∧
      env.devices.get? a.p_sys.i_device_id.toNat = some d ∧
      r.p_aout.p_sys.deviceInfo = some d ∧
      (r.ret = VLC_SUCCESS ↔ 1 ≤ d.maxOutputChannels) ∧
      (r.ret = VLC_SUCCESS ∨ r.ret = VLC_EGENERIC) := by
  have hlen : a.p_sys.i_device_id.toNat < env.devices.length := by rw [hcount] at hlt; omega
  have hd : env.devices.get? a.p_sys.i_device_id.toNat
      = some (env.devices.get ⟨a.p_sys.i_device_id.toNat, hlen⟩) := List.get?_eq_get hlen
  refine ⟨_, _, PAOpenDevice_selected env a _ hinit hcount h0 hd, hd, ?_, ?_, ?_⟩
  · split_ifs <;> rfl
  · split_ifs with h
    · constructor
      · intro hret
        have hne : VLC_EGENERIC ≠ VLC_SUCCESS := by decide
        exact absurd hret hne
      · intro hge; omega
    · constructor
      · intro _; omega
      · intro _; rfl
  · split_ifs
    · right; rfl
    · left; rfl

/-- Witness for C5: index 1 of a microphone and a six-channel card. -/
theorem PAOpenDevice_valid_index_witness :
    ∃ r d, PAOpenDevice (envOk [mic, card6] 0) (aout0 1) = some r ∧
      (envOk [mic, card6] 0).devices.get? (aout0 1).p_sys.i_device_id.toNat = some d ∧
      r.p_aout.p_sys.deviceInfo = some d ∧
      (r.ret = VLC_SUCCESS ↔ 1 ≤ d.maxOutputChannels) ∧
      (r.ret = VLC_SUCCESS ∨ r.ret = VLC_EGENERIC) :=
  PAOpenDevice_valid_index (envOk [mic, card6] 0) (aout0 1) rfl rfl (by decide) (by decide)

/-- Counterexample to C5 as stated: initialisation and enumeration succeed with
two devices, index 0 is valid, yet `PAOpenDevice` fails, because device 0 is an
input-only device with no output channel. -/
theorem PAOpenDevice_valid_index_input_only :
    (envOk [mic, card6] 0).r_Initialize = paNoError ∧
    (envOk [mic, card6] 0).r_GetDeviceCount = 2 ∧
    0 ≤ (aout0 0).p_sys.i_device_id ∧
    (aout0 0).p_sys.i_device_id < (envOk [mic, card6] 0).r_GetDeviceCount ∧
    ∃ r, PAOpenDevice (envOk [mic, card6] 0) (aout0 0) = some r ∧ r.ret = VLC_EGENERIC ∧
      r.ret ≠ VLC_SUCCESS ∧ r.p_aout.p_sys.deviceInfo = some mic :=
  ⟨rfl, rfl, by decide, by decide, _, rfl, by decide, by decide, by decide⟩

/-! ## Theorems: PAOpenStream -/

/-- `PAOpenStream` once "audio-device" reads `v` and a device is selected, by
the outcome of `Pa_OpenStream` and `Pa_StartStream`. -/
theorem PAOpenStream_eq (env : PaEnv) (a : aout_instance_t) (v : Int) (d : PaDeviceInfo)
    (hv : env.r_var_Get = some v) (hd : a.p_sys.deviceInfo = some d) :
    PAOpenStream env a = some
      (if env.r_OpenStream ≠ paNoError then
        { ret := VLC_EGENERIC, p_aout := withStream (configured a v) none,
          calls := [Call.var_Get_audio_device, openStreamCall env a v] }
      else if env.r_StartStream ≠ paNoError then
        { ret := VLC_EGENERIC, p_aout := withStream (configured a v) (some env.stream),
          calls := [Call.var_Get_audio_device, openStreamCall env a v,
                    Call.Pa_StartStream (some env.stream) env.r_StartStream,
                    Call.Pa_CloseStream (some env.stream)] }
      else
        { ret := VLC_SUCCESS, p_aout := withStream (configured a v) (some env.stream),
          calls := [Call.var_Get_audio_device, openStreamCall env a v,
                    Call.Pa_StartStream (some env.stream) env.r_StartStream] }) := by
  unfold PAOpenStream
  simp only [hv, hd]
  by_cases h1 : env.r_OpenStream = paNoError
  · by_cases h2 : env.r_StartStream = paNoError
    · simp [h1, h2, withStream, configured, openStreamCall, hd]
    · simp [h1, h2, withStream, configured, openStreamCall, hd]
  · simp [h1, withStream, configured, openStreamCall, hd]

/-- C6. Sample size is 4 bytes per channel of the mapped layout: for every
"audio-device" value `v` (with a device selected), `PAOpenStream` sets the
physical channel mask by the fixed table (5.1 gives L|R|C|RL|RR|LFE, 3F2R gives
L|R|C|RL|RR, 2F2R gives L|R|RL|RR, Mono gives C, every other value gives L|R),
sets `i_sample_size` to 4 times the number of channels in that mask, that is
24, 20, 16, 4 and 8 bytes, sets the samples per period to 1024, and calls
`Pa_OpenStream` with that channel count and 1024 frames per buffer. -/
theorem PAOpenStream_sample_size (env : PaEnv) (a : aout_instance_t) (v : Int)
    (d : PaDeviceInfo)
    (hv : env.r_var_Get = some v) (hd : a.p_sys.deviceInfo = some d) :
    ∃ r, PAOpenStream env a = some r ∧
      (v = AOUT_VAR_5_1 →
        r.p_aout.i_physical_channels = (AOUT_CHAN_LEFT ||| AOUT_CHAN_RIGHT ||| AOUT_CHAN_CENTER
          ||| AOUT_CHAN_REARLEFT ||| AOUT_CHAN_REARRIGHT ||| AOUT_CHAN_LFE) ∧
        r.p_aout.p_sys.i_sample_size = 24) ∧
      (v = AOUT_VAR_3F2R →
        r.p_aout.i_physical_channels = (AOUT_CHAN_LEFT ||| AOUT_CHAN_RIGHT ||| AOUT_CHAN_CENTER
          ||| AOUT_CHAN_REARLEFT ||| AOUT_CHAN_REARRIGHT) ∧
        r.p_aout.p_sys.i_sample_size = 20) ∧
      (v = AOUT_VAR_2F2R →
        r.p_aout.i_physical_channels = (AOUT_CHAN_LEFT ||| AOUT_CHAN_RIGHT
          ||| AOUT_CHAN_REARLEFT ||| AOUT_CHAN_REARRIGHT) ∧
        r.p_aout.p_sys.i_sample_size = 16) ∧
      (v = AOUT_VAR_MONO →
        r.p_aout.i_physical_channels = AOUT_CHAN_CENTER ∧
        r.p_aout.p_sys.i_sample_size = 4) ∧
      (v ≠ AOUT_VAR_5_1 → v ≠ AOUT_VAR_3F2R → v ≠ AOUT_VAR_2F2R → v ≠ AOUT_VAR_MONO →
        r.p_aout.i_physical_channels = (AOUT_CHAN_LEFT ||| AOUT_CHAN_RIGHT) ∧
        r.p_aout.p_sys.i_sample_size = 8) ∧
      r.p_aout.p_sys.i_sample_size = 4 * aout_FormatNbChannels r.p_aout.i_physical_channels ∧
      r.p_aout.i_nb_samples = 1024 ∧
      Call.Pa_OpenStream a.p_sys.i_device_id
        (aout_FormatNbChannels r.p_aout.i_physical_channels) 1024 env.r_OpenStream ∈ r.calls := by
  have hshape : ∀ r : OpenResult, PAOpenStream env a = some r →
      r.p_aout.i_physical_channels = channelMask v ∧
      r.p_aout.p_sys.i_sample_size = 4 * aout_FormatNbChannels (channelMask v) ∧
      r.p_aout.i_nb_samples = 1024 ∧
      openStreamCall env a v ∈ r.calls := by
    intro r hr
    rw [PAOpenStream_eq env a v d hv hd] at hr
    have hr' := Option.some.inj hr
    subst hr'
    split_ifs <;> exact ⟨rfl, rfl, rfl, by simp⟩
  refine ⟨_, PAOpenStream_eq env a v d hv hd, ?_⟩
  obtain ⟨hmask, hsize, hnb, hcall⟩ := hshape _ (PAOpenStream_eq env a v d hv hd)
  refine ⟨?_, ?_, ?_, ?_, ?_, ?_, hnb, ?_⟩
  · intro h; subst h; rw [hmask, hsize]; exact ⟨by decide, by decide⟩
  · intro h; subst h; rw [hmask, hsize]; exact ⟨by decide, by decide⟩
  · intro h; subst h; rw [hmask, hsize]; exact ⟨by decide, by decide⟩
  · intro h; subst h; rw [hmask, hsize]; exact ⟨by decide, by decide⟩
  · intro h1 h2 h3 h4
    have hm : channelMask v = (AOUT_CHAN_LEFT ||| AOUT_CHAN_RIGHT) := by
      simp only [channelMask, h1, h2, h3, h4, if_false]
    rw [hmask, hsize, hm]
    exact ⟨rfl, by decide⟩
  · rw [hsize, hmask]
  · rw [hmask]; exact hcall

/-- Witness for C6: the 5.1 configuration on the six-channel card. -/
theorem PAOpenStream_sample_size_witness :
    ∃ r, PAOpenStream (envOk [card6] AOUT_VAR_5_1) (selected card6) = some r ∧
      r.p_aout.i_physical_channels = 0x1067 ∧ r.p_aout.p_sys.i_sample_size = 24 ∧
      r.p_aout.i_nb_samples = 1024 ∧
      Call.Pa_OpenStream 0 6 1024 paNoError ∈ r.calls := by
  obtain ⟨r, hr, h51, _, _, _, _, _, hnb, _⟩ :=
    PAOpenStream_sample_size (envOk [card6] AOUT_VAR_5_1) (selected card6) AOUT_VAR_5_1 card6
      rfl rfl
  refine ⟨r, hr, (h51 rfl).1, (h51 rfl).2, hnb, ?_⟩
  have hr2 : PAOpenStream (envOk [card6] AOUT_VAR_5_1) (selected card6) = some
      { ret := VLC_SUCCESS,
        p_aout := withStream (configured (selected card6) AOUT_VAR_5_1) (some 7),
        calls := [Call.var_Get_audio_device, Call.Pa_OpenStream 0 6 1024 paNoError,
                  Call.Pa_StartStream (some 7) paNoError] } := by decide
  rw [hr2] at hr
  have := Option.some.inj hr
  subst this
  simp

/-! ## Theorems: the calls of PAOpenDevice and PAOpenStream on every path -/

/-- The calls of `PAOpenDevice` on each of its paths: a failed `Pa_Initialize`
alone; or a successful one, the count query and device queries, closed by
`Pa_Terminate` exactly on the failure paths. -/
theorem PAOpenDevice_shape (env : PaEnv) (a : aout_instance_t) (r : OpenResult)
    (h : PAOpenDevice env a = some r) :
    (env.r_Initialize ≠ paNoError ∧ r.ret = VLC_EGENERIC ∧
      r.calls = [Call.Pa_Initialize env.r_Initialize]) ∨
    (∃ l : List Int, r.ret = VLC_EGENERIC ∧
      r.calls = [Call.Pa_Initialize paNoError, Call.Pa_GetDeviceCount]
        ++ l.map Call.Pa_GetDeviceInfo ++ [Call.Pa_Terminate]) ∨
    (∃ l : List Int, r.ret = VLC_SUCCESS ∧
      r.calls = [Call.Pa_Initialize paNoError, Call.Pa_GetDeviceCount]
        ++ l.map Call.Pa_GetDeviceInfo ∧
      ∃ d, r.p_aout.p_sys.deviceInfo = some d) := by
  unfold PAOpenDevice at h
  by_cases hinit : env.r_Initialize = paNoError
  · right
    simp only [hinit, ne_eq, not_true_eq_false, if_false] at h
    split_ifs at h with hneg hall hrange
    · left
      refine ⟨[], ?_⟩
      have := Option.some.inj h
      subst this
      exact ⟨rfl, rfl⟩
    · left
      refine ⟨(List.range env.r_GetDeviceCount.toNat).map (fun i => (i : Int)), ?_⟩
      have := Option.some.inj h
      subst this
      refine ⟨rfl, ?_⟩
      simp [PAOpenDevice_error, List.map_map, Function.comp_def]
    · split at h
      · exact Option.noConfusion h
      · rename_i deviceInfo hinfo
        split_ifs at h with hm
        · left
          refine ⟨(List.range env.r_GetDeviceCount.toNat).map (fun i => (i : Int))
            ++ [a.p_sys.i_device_id], ?_⟩
          have := Option.some.inj h
          subst this
          refine ⟨rfl, ?_⟩
          simp [PAOpenDevice_error, List.map_map, Function.comp_def]
        · right
          refine ⟨(List.range env.r_GetDeviceCount.toNat).map (fun i => (i : Int))
            ++ [a.p_sys.i_device_id], ?_⟩
          have := Option.some.inj h
          subst this
          refine ⟨rfl, ?_, deviceInfo, ?_⟩
          · simp [List.map_map, Function.comp_def]
          · cases a.audio_device <;> rfl
  · left
    simp only [hinit, ne_eq, not_false_eq_true, if_true] at h
    have := Option.some.inj h
    subst this
    exact ⟨hinit, rfl, rfl⟩

/-- A successful `Pa_Initialize` takes the engine one level deeper. -/
theorem engineDepth_initOk (k : Nat) (rest : List Call) :
    engineDepth k (Call.Pa_Initialize paNoError :: rest) = engineDepth (k + 1) rest := by
  simp only [engineDepth, if_true]

/-- A `Pa_Terminate` undoes one level. -/
theorem engineDepth_terminate (k : Nat) (rest : List Call) :
    engineDepth (k + 1) (Call.Pa_Terminate :: rest) = engineDepth k rest := by
  simp only [engineDepth]

/-- A call that is neither `Pa_Initialize` nor `Pa_Terminate` leaves the depth alone. -/
theorem engineDepth_skip (k : Nat) (c : Call) (rest : List Call)
    (h1 : isInitializeCall c = false) (h2 : isTerminate c = false) :
    engineDepth k (c :: rest) = engineDepth k rest := by
  cases c <;> first
    | exact Bool.noConfusion h1
    | exact Bool.noConfusion h2
    | (simp only [engineDepth])

/-- `PAOpenDevice` never touches a stream, the readiness signal or the condition variable. -/
theorem PAOpenDevice_counts (env : PaEnv) (a : aout_instance_t) (r : OpenResult)
    (h : PAOpenDevice env a = some r) :
    closeStreamCount r.calls = 0 ∧ stopStreamCount r.calls = 0 ∧ startStreamCount r.calls = 0 ∧
      readyCount r.calls = 0 ∧ waitCount r.calls = 0 := by
  unfold closeStreamCount stopStreamCount startStreamCount readyCount waitCount
  rcases PAOpenDevice_shape env a r h with ⟨_, _, hc⟩ | ⟨l, _, hc⟩ | ⟨l, _, hc, _⟩
  · rw [hc]; exact ⟨rfl, rfl, rfl, rfl, rfl⟩
  · rw [hc]
    simp only [List.countP_append, countP_deviceInfo isCloseStream (fun _ => rfl) l,
      countP_deviceInfo isStopStream (fun _ => rfl) l,
      countP_deviceInfo isStartStream (fun _ => rfl) l,
      countP_deviceInfo isReady (fun _ => rfl) l, countP_deviceInfo isWait (fun _ => rfl) l]
    exact ⟨rfl, rfl, rfl, rfl, rfl⟩
  · rw [hc]
    simp only [List.countP_append, countP_deviceInfo isCloseStream (fun _ => rfl) l,
      countP_deviceInfo isStopStream (fun _ => rfl) l,
      countP_deviceInfo isStartStream (fun _ => rfl) l,
      countP_deviceInfo isReady (fun _ => rfl) l, countP_deviceInfo isWait (fun _ => rfl) l]
    exact ⟨rfl, rfl, rfl, rfl, rfl⟩

/-- When `PAOpenDevice` fails it has undone its own initialisation; when it
succeeds the engine is one level deeper. -/
theorem PAOpenDevice_depth (env : PaEnv) (a : aout_instance_t) (r : OpenResult)
    (h : PAOpenDevice env a = some r) (k : Nat) (rest : List Call) :
    (r.ret ≠ VLC_SUCCESS → terminateCount r.calls = initializeCount r.calls ∧
      engineDepth k (r.calls ++ rest) = engineDepth k rest) ∧
    (r.ret = VLC_SUCCESS → terminateCount r.calls = 0 ∧ initializeCount r.calls = 1 ∧
      engineDepth k (r.calls ++ rest) = engineDepth (k + 1) rest) := by
  have hne : VLC_EGENERIC ≠ VLC_SUCCESS := by decide
  unfold terminateCount initializeCount
  rcases PAOpenDevice_shape env a r h with ⟨hi, hr, hc⟩ | ⟨l, hr, hc⟩ | ⟨l, hr, hc, _⟩
  · constructor
    · intro _
      rw [hc]
      have hb : (env.r_Initialize == paNoError) = false := by simpa using hi
      constructor
      · simp [List.countP_cons, isTerminate, isInitializeOk, hb]
      · show engineDepth k (Call.Pa_Initialize env.r_Initialize :: rest) = engineDepth k rest
        simp only [engineDepth, if_neg hi]
    · intro hs; rw [hr] at hs; exact absurd hs hne
  · constructor
    · intro _
      rw [hc]
      constructor
      · simp only [List.countP_append, countP_deviceInfo isTerminate (fun _ => rfl) l,
          countP_deviceInfo isInitializeOk (fun _ => rfl) l]
        decide
      · show engineDepth k (Call.Pa_Initialize paNoError :: Call.Pa_GetDeviceCount ::
          ((l.map Call.Pa_GetDeviceInfo ++ [Call.Pa_Terminate]) ++ rest)) = engineDepth k rest
        rw [engineDepth_initOk, engineDepth_skip _ Call.Pa_GetDeviceCount _ rfl rfl, List.append_assoc,
          engineDepth_deviceInfo]
        exact engineDepth_terminate k rest
    · intro hs; rw [hr] at hs; exact absurd hs hne
  · constructor
    · intro hs; exact absurd hr hs
    · intro _
      rw [hc]
      refine ⟨?_, ?_, ?_⟩
      · simp only [List.countP_append, countP_deviceInfo isTerminate (fun _ => rfl) l]
        decide
      · simp only [List.countP_append, countP_deviceInfo isInitializeOk (fun _ => rfl) l]
        decide
      · show engineDepth k (Call.Pa_Initialize paNoError :: Call.Pa_GetDeviceCount ::
          (l.map Call.Pa_GetDeviceInfo ++ rest)) = engineDepth (k + 1) rest
        rw [engineDepth_initOk, engineDepth_skip _ Call.Pa_GetDeviceCount _ rfl rfl, engineDepth_deviceInfo]

/-- The calls of `PAOpenStream` on each of its paths. -/
theorem PAOpenStream_shape (env : PaEnv) (a : aout_instance_t) (r : OpenResult)
    (h : PAOpenStream env a = some r) :
    (env.r_var_Get = none ∧ r.ret = VLC_EGENERIC ∧ r.calls = [Call.var_Get_audio_device]) ∨
    (∃ v, env.r_var_Get = some v ∧ env.r_OpenStream ≠ paNoError ∧ r.ret = VLC_EGENERIC ∧
      r.p_aout.p_sys.p_stream = none ∧
      r.calls = [Call.var_Get_audio_device, openStreamCall env a v]) ∨
    (∃ v, env.r_var_Get = some v ∧ env.r_OpenStream = paNoError ∧
      env.r_StartStream ≠ paNoError ∧ r.ret = VLC_EGENERIC ∧
      r.p_aout.p_sys.p_stream = some env.stream ∧
      r.calls = [Call.var_Get_audio_device, openStreamCall env a v,
                 Call.Pa_StartStream (some env.stream) env.r_StartStream,
                 Call.Pa_CloseStream (some env.stream)]) ∨
    (∃ v, env.r_var_Get = some v ∧ env.r_OpenStream = paNoError ∧
      env.r_StartStream = paNoError ∧ r.ret = VLC_SUCCESS ∧
      r.p_aout.p_sys.p_stream = some env.stream ∧
      r.calls = [Call.var_Get_audio_device, openStreamCall env a v,
                 Call.Pa_StartStream (some env.stream) env.r_StartStream]) := by
  cases hv : env.r_var_Get with
  | none =>
    left
    unfold PAOpenStream at h
    simp only [hv] at h
    have := Option.some.inj h
    subst this
    exact ⟨rfl, rfl, rfl⟩
  | some v =>
    right
    cases hd : a.p_sys.deviceInfo with
    | none =>
      unfold PAOpenStream at h
      simp only [hv, hd] at h
      exact Option.noConfusion h
    | some d =>
      rw [PAOpenStream_eq env a v d hv hd] at h
      have := Option.some.inj h
      subst this
      by_cases h1 : env.r_OpenStream = paNoError
      · by_cases h2 : env.r_StartStream = paNoError
        · right; right
          refine ⟨v, rfl, h1, h2, ?_⟩
          rw [if_neg (not_not.mpr h1), if_neg (not_not.mpr h2)]
          exact ⟨rfl, rfl, rfl⟩
        · right; left
          refine ⟨v, rfl, h1, h2, ?_⟩
          rw [if_neg (not_not.mpr h1), if_pos h2]
          exact ⟨rfl, rfl, rfl⟩
      · left
        refine ⟨v, rfl, h1, ?_⟩
        rw [if_pos h1]
        exact ⟨rfl, rfl, rfl⟩

/-- `PAOpenStream` leaves the engine's initialisation, the readiness signal and
the condition variable alone, and never stops a stream. -/
theorem PAOpenStream_counts (env : PaEnv) (a : aout_instance_t) (r : OpenResult)
    (h : PAOpenStream env a = some r) (k : Nat) (rest : List Call) :
    terminateCount r.calls = 0 ∧ initializeCount r.calls = 0 ∧ stopStreamCount r.calls = 0 ∧
      readyCount r.calls = 0 ∧ waitCount r.calls = 0 ∧
      engineDepth k (r.calls ++ rest) = engineDepth k rest := by
  unfold terminateCount initializeCount stopStreamCount readyCount waitCount
  rcases PAOpenStream_shape env a r h with
    ⟨_, _, hc⟩ | ⟨v, _, _, _, _, hc⟩ | ⟨v, _, _, _, _, _, hc⟩ | ⟨v, _, _, _, _, _, hc⟩ <;>
  · rw [hc]
    exact ⟨rfl, rfl, rfl, rfl, rfl, rfl⟩

/-! ## Theorems: the engine thread -/

/-- The three ways through the setup part of `PORTAUDIOThread`. -/
theorem PORTAUDIOThread_setup_paths (env : PaEnv) (pa : pa_thread_t) (a : aout_instance_t)
    (next : Resume) (t : ThreadResult)
    (h : PORTAUDIOThread_setup env pa a = some (next, t)) :
    ∃ dev, PAOpenDevice env a = some dev ∧
      ((dev.ret ≠ VLC_SUCCESS ∧ next = Resume.exit ∧
          t = { pa_thread := { pa with b_error := true }, p_aout := dev.p_aout,
                calls := dev.calls ++ [Call.vlc_thread_ready true] }) ∨
       (dev.ret = VLC_SUCCESS ∧ ∃ str, PAOpenStream env dev.p_aout = some str ∧
          ((str.ret ≠ VLC_SUCCESS ∧ next = Resume.terminate ∧
              t = { pa_thread := { pa with b_error := true }, p_aout := str.p_aout,
                    calls := dev.calls ++ str.calls ++ [Call.vlc_thread_ready true] }) ∨
           (str.ret = VLC_SUCCESS ∧ next = Resume.wait ∧
              t = { pa_thread := pa, p_aout := str.p_aout,
                    calls := dev.calls ++ str.calls ++ [Call.vlc_thread_ready pa.b_error] })))) := by
  unfold PORTAUDIOThread_setup at h
  cases hdev : PAOpenDevice env a with
  | none => rw [hdev] at h; exact Option.noConfusion h
  | some dev =>
    rw [hdev] at h
    refine ⟨dev, rfl, ?_⟩
    by_cases hret : dev.ret = VLC_SUCCESS
    · right
      refine ⟨hret, ?_⟩
      simp only [hret, ne_eq, not_true_eq_false, if_false] at h
      cases hstr : PAOpenStream env dev.p_aout with
      | none => rw [hstr] at h; exact Option.noConfusion h
      | some str =>
        rw [hstr] at h
        refine ⟨str, rfl, ?_⟩
        by_cases hret2 : str.ret = VLC_SUCCESS
        · right
          simp only [hret2, ne_eq, not_true_eq_false, if_false] at h
          have := Option.some.inj h
          exact ⟨hret2, (Prod.mk.inj this).1.symm, (Prod.mk.inj this).2.symm⟩
        · left
          simp only [hret2, ne_eq, not_false_eq_true, if_true] at h
          have := Option.some.inj h
          exact ⟨hret2, (Prod.mk.inj this).1.symm, (Prod.mk.inj this).2.symm⟩
    · left
      simp only [hret, ne_eq, not_false_eq_true, if_true] at h
      have := Option.some.inj h
      exact ⟨hret, (Prod.mk.inj this).1.symm, (Prod.mk.inj this).2.symm⟩

/-- The whole run of the thread is its setup followed by its resumption. -/
theorem PORTAUDIOThread_eq (env : PaEnv) (pa : pa_thread_t) (a : aout_instance_t)
    (T : ThreadResult) (h : PORTAUDIOThread env pa a = some T) :
    ∃ next t, PORTAUDIOThread_setup env pa a = some (next, t) ∧
      T = PORTAUDIOThread_resume env next t := by
  unfold PORTAUDIOThread at h
  cases hs : PORTAUDIOThread_setup env pa a with
  | none => rw [hs] at h; exact Option.noConfusion h
  | some p =>
    obtain ⟨next, t⟩ := p
    rw [hs] at h
    exact ⟨next, t, rfl, (Option.some.inj h).symm⟩

/-- The calls of the waiting branch of `PORTAUDIOThread_resume`. -/
theorem PORTAUDIOThread_resume_wait (env : PaEnv) (t : ThreadResult) :
    ∃ w : List Call, (w = [] ∨ w = [Call.vlc_cond_wait env.b_die_after_wait]) ∧
      (PORTAUDIOThread_resume env Resume.wait t).calls =
        t.calls ++ w ++ [Call.Pa_StopStream t.p_aout.p_sys.p_stream,
                         Call.Pa_CloseStream t.p_aout.p_sys.p_stream, Call.Pa_Terminate] ∧
      (PORTAUDIOThread_resume env Resume.wait t).pa_thread.b_error = t.pa_thread.b_error := by
  unfold PORTAUDIOThread_resume
  by_cases hb : (t.pa_thread.b_die || env.b_die_at_lock) = true
  · refine ⟨[], Or.inl rfl, ?_, ?_⟩ <;> simp [hb]
  · refine ⟨[Call.vlc_cond_wait env.b_die_after_wait], Or.inr rfl, ?_, ?_⟩ <;> simp [hb]

/-- The calls and the error flag of a whole run of `PORTAUDIOThread`, path by path. -/
theorem PORTAUDIOThread_paths (env : PaEnv) (pa : pa_thread_t) (a : aout_instance_t)
    (T : ThreadResult) (h : PORTAUDIOThread env pa a = some T) :
    ∃ dev, PAOpenDevice env a = some dev ∧
      ((dev.ret ≠ VLC_SUCCESS ∧ T.pa_thread.b_error = true ∧
          T.calls = dev.calls ++ [Call.vlc_thread_ready true]) ∨
       (dev.ret = VLC_SUCCESS ∧ ∃ str, PAOpenStream env dev.p_aout = some str ∧
          ((str.ret ≠ VLC_SUCCESS ∧ T.pa_thread.b_error = true ∧
              T.calls = dev.calls ++ str.calls
                ++ [Call.vlc_thread_ready true, Call.Pa_Terminate]) ∨
           (str.ret = VLC_SUCCESS ∧ T.pa_thread.b_error = pa.b_error ∧
              ∃ w : List Call, (w = [] ∨ w = [Call.vlc_cond_wait env.b_die_after_wait]) ∧
                T.calls = dev.calls ++ str.calls ++ [Call.vlc_thread_ready pa.b_error] ++ w
                  ++ [Call.Pa_StopStream str.p_aout.p_sys.p_stream,
                      Call.Pa_CloseStream str.p_aout.p_sys.p_stream, Call.Pa_Terminate])))) := by
  obtain ⟨next, t, hs, hT⟩ := PORTAUDIOThread_eq env pa a T h
  obtain ⟨dev, hdev, hp⟩ := PORTAUDIOThread_setup_paths env pa a next t hs
  refine ⟨dev, hdev, ?_⟩
  rcases hp with ⟨hret, hn, ht⟩ | ⟨hret, str, hstr, hq⟩
  · left
    subst hn; subst ht; subst hT
    exact ⟨hret, rfl, rfl⟩
  · right
    refine ⟨hret, str, hstr, ?_⟩
    rcases hq with ⟨hret2, hn, ht⟩ | ⟨hret2, hn, ht⟩
    · left
      subst hn; subst ht; subst hT
      refine ⟨hret2, rfl, ?_⟩
      show (dev.calls ++ str.calls ++ [Call.vlc_thread_ready true]) ++ [Call.Pa_Terminate] = _
      simp
    · right
      subst hn; subst hT
      obtain ⟨w, hw, hc, hb⟩ := PORTAUDIOThread_resume_wait env t
      subst ht
      exact ⟨hret2, hb, w, hw, hc⟩

/-- C7. A stream that fails to start is not leaked and not closed twice. After a
successful `PAOpenDevice` with "audio-device" readable: when `Pa_OpenStream`
succeeds and `Pa_StartStream` fails, `PAOpenStream` returns `VLC_EGENERIC`, its
calls end with the failed `Pa_StartStream` followed by one `Pa_CloseStream` on
the just-opened stream (its only one), and the whole engine thread run contains
exactly that one `Pa_CloseStream` and no `Pa_StopStream`; when `Pa_OpenStream`
itself fails, `PAOpenStream` returns `VLC_EGENERIC` with `p_stream` null and
neither it nor the thread makes any start, stop or close call. -/
theorem PAOpenStream_start_failure (env : PaEnv) (pa : pa_thread_t) (a : aout_instance_t)
    (dev : OpenResult) (v : Int)
    (hdev : PAOpenDevice env a = some dev) (hok : dev.ret = VLC_SUCCESS)
    (hv : env.r_var_Get = some v) :
    (env.r_OpenStream = paNoError → env.r_StartStream ≠ paNoError →
      ∃ str T, PAOpenStream env dev.p_aout = some str ∧ str.ret = VLC_EGENERIC ∧
        str.calls = [Call.var_Get_audio_device, openStreamCall env dev.p_aout v,
                     Call.Pa_StartStream (some env.stream) env.r_StartStream,
                     Call.Pa_CloseStream (some env.stream)] ∧
        closeStreamCount str.calls = 1 ∧
        PORTAUDIOThread env pa a = some T ∧
        T.calls = dev.calls ++ str.calls ++ [Call.vlc_thread_ready true, Call.Pa_Terminate] ∧
        closeStreamCount T.calls = 1 ∧ stopStreamCount T.calls = 0) ∧
    (env.r_OpenStream ≠ paNoError →
      ∃ str T, PAOpenStream env dev.p_aout = some str ∧ str.ret = VLC_EGENERIC ∧
        str.p_aout.p_sys.p_stream = none ∧
        startStreamCount str.calls = 0 ∧ closeStreamCount str.calls = 0 ∧
        PORTAUDIOThread env pa a = some T ∧
        startStreamCount T.calls = 0 ∧ closeStreamCount T.calls = 0 ∧
        stopStreamCount T.calls = 0) := by
  obtain ⟨l, hdret, hdcalls, d, hd⟩ : ∃ l : List Int, dev.ret = VLC_SUCCESS ∧
      dev.calls = [Call.Pa_Initialize paNoError, Call.Pa_GetDeviceCount]
        ++ l.map Call.Pa_GetDeviceInfo ∧ ∃ d, dev.p_aout.p_sys.deviceInfo = some d := by
    have hne : VLC_EGENERIC ≠ VLC_SUCCESS := by decide
    rcases PAOpenDevice_shape env a dev hdev with ⟨_, hr, _⟩ | ⟨l, hr, _⟩ | h3
    · rw [hr] at hok; exact absurd hok hne
    · rw [hr] at hok; exact absurd hok hne
    · exact h3
  obtain ⟨hc1, hc2, hc3, _, _⟩ := PAOpenDevice_counts env a dev hdev
  have hstr := PAOpenStream_eq env dev.p_aout v d hv hd
  have hne : VLC_EGENERIC ≠ VLC_SUCCESS := by decide
  constructor
  · intro h1 h2
    rw [if_neg (not_not.mpr h1), if_pos h2] at hstr
    have hT : PORTAUDIOThread env pa a = some
        { pa_thread := { pa with b_error := true },
          p_aout := withStream (configured dev.p_aout v) (some env.stream),
          calls := dev.calls ++ [Call.var_Get_audio_device, openStreamCall env dev.p_aout v,
                     Call.Pa_StartStream (some env.stream) env.r_StartStream,
                     Call.Pa_CloseStream (some env.stream)]
                   ++ [Call.vlc_thread_ready true, Call.Pa_Terminate] } := by
      unfold PORTAUDIOThread PORTAUDIOThread_setup
      simp [hdev, hok, hstr, hne, PORTAUDIOThread_resume]
    refine ⟨_, _, hstr, rfl, rfl, rfl, hT, rfl, ?_, ?_⟩
    · unfold closeStreamCount at hc1 ⊢
      simp only [List.countP_append, hc1]
      rfl
    · unfold stopStreamCount at hc2 ⊢
      simp only [List.countP_append, hc2]
      rfl
  · intro h1
    rw [if_pos h1] at hstr
    have hT : PORTAUDIOThread env pa a = some
        { pa_thread := { pa with b_error := true },
          p_aout := withStream (configured dev.p_aout v) none,
          calls := dev.calls ++ [Call.var_Get_audio_device, openStreamCall env dev.p_aout v]
                   ++ [Call.vlc_thread_ready true, Call.Pa_Terminate] } := by
      unfold PORTAUDIOThread PORTAUDIOThread_setup
      simp [hdev, hok, hstr, hne, PORTAUDIOThread_resume]
    refine ⟨_, _, hstr, rfl, rfl, rfl, rfl, hT, ?_, ?_, ?_⟩
    · unfold startStreamCount at hc3 ⊢
      simp only [List.countP_append, hc3]
      rfl
    · unfold closeStreamCount at hc1 ⊢
      simp only [List.countP_append, hc1]
      rfl
    · unfold stopStreamCount at hc2 ⊢
      simp only [List.countP_append, hc2]
      rfl

/-- Witness for C7: the six-channel card with a failing `Pa_StartStream`, and
with a failing `Pa_OpenStream`. -/
theorem PAOpenStream_start_failure_witness :
    (∃ str T, PAOpenStream envStartFails opened6.p_aout = some str ∧ str.ret = VLC_EGENERIC ∧
        str.calls = [Call.var_Get_audio_device,
                     openStreamCall envStartFails opened6.p_aout AOUT_VAR_STEREO,
                     Call.Pa_StartStream (some envStartFails.stream) envStartFails.r_StartStream,
                     Call.Pa_CloseStream (some envStartFails.stream)] ∧
        closeStreamCount str.calls = 1 ∧
        PORTAUDIOThread envStartFails thread0 (aout0 0) = some T ∧
        T.calls = opened6.calls ++ str.calls
          ++ [Call.vlc_thread_ready true, Call.Pa_Terminate] ∧
        closeStreamCount T.calls = 1 ∧ stopStreamCount T.calls = 0) ∧
    (∃ str T, PAOpenStream envOpenFails opened6.p_aout = some str ∧ str.ret = VLC_EGENERIC ∧
        str.p_aout.p_sys.p_stream = none ∧
        startStreamCount str.calls = 0 ∧ closeStreamCount str.calls = 0 ∧
        PORTAUDIOThread envOpenFails thread0 (aout0 0) = some T ∧
        startStreamCount T.calls = 0 ∧ closeStreamCount T.calls = 0 ∧
        stopStreamCount T.calls = 0) :=
  ⟨(PAOpenStream_start_failure envStartFails thread0 (aout0 0) opened6 AOUT_VAR_STEREO
      (by decide) (by decide) rfl).1 (by decide) (by decide),
   (PAOpenStream_start_failure envOpenFails thread0 (aout0 0) opened6 AOUT_VAR_STEREO
      (by decide) (by decide) rfl).2 (by decide)⟩

/-- C9. Readiness is always signalled and the error flag reflects setup: on
every path of `PORTAUDIOThread`, entered with `b_error` false,
`vlc_thread_ready` is raised exactly once, no `vlc_cond_wait` and no other
readiness signal precedes it, and the flag `b_error` at that moment (which is
also its final value) is true if and only if `PAOpenDevice` or `PAOpenStream`
failed; consequently `Open` returns `VLC_SUCCESS` only if its own
`PAOpenDevice` and, on the engine thread, both `PAOpenDevice` and
`PAOpenStream` returned `VLC_SUCCESS`. -/
theorem PORTAUDIOThread_ready_once (env : PaEnv) (pa : pa_thread_t) (a : aout_instance_t)
    (T : ThreadResult)
    (hpa : pa.b_error = false)
    (h : PORTAUDIOThread env pa a = some T) :
    readyCount T.calls = 1 ∧
    (∃ pre post b, T.calls = pre ++ Call.vlc_thread_ready b :: post ∧
      readyCount pre = 0 ∧ waitCount pre = 0 ∧ readyCount post = 0 ∧
      T.pa_thread.b_error = b ∧
      (b = true ↔ ∃ dev, PAOpenDevice env a = some dev ∧
        (dev.ret ≠ VLC_SUCCESS ∨
          ∃ str, PAOpenStream env dev.p_aout = some str ∧ str.ret ≠ VLC_SUCCESS))) ∧
    (∀ (oenv : OpenEnv) (a0 : aout_instance_t) (r : OpenResult),
      Open oenv a0 = some r → r.ret = VLC_SUCCESS →
      ∃ dev0 dev str : OpenResult,
        PAOpenDevice oenv.first (Open_p_sys oenv a0) = some dev0 ∧ dev0.ret = VLC_SUCCESS ∧
        PAOpenDevice oenv.thread dev0.p_aout = some dev ∧ dev.ret = VLC_SUCCESS ∧
        PAOpenStream oenv.thread dev.p_aout = some str ∧ str.ret = VLC_SUCCESS) := by
  obtain ⟨dev, hdev, hp⟩ := PORTAUDIOThread_paths env pa a T h
  obtain ⟨_, _, _, hdr, hdw⟩ := PAOpenDevice_counts env a dev hdev
  unfold readyCount waitCount at *
  refine ⟨?_, ?_, ?_⟩
  · rcases hp with ⟨_, _, hc⟩ | ⟨_, str, hstr, hq⟩
    · rw [hc, List.countP_append, hdr]; rfl
    · obtain ⟨_, _, _, hsr, _, _⟩ := PAOpenStream_counts env dev.p_aout str hstr 0 []
      unfold readyCount at hsr
      rcases hq with ⟨_, _, hc⟩ | ⟨_, _, w, hw, hc⟩
      · rw [hc]; simp only [List.countP_append, hdr, hsr]; rfl
      · rw [hc]
        rcases hw with hw | hw <;> subst hw <;> simp only [List.countP_append, hdr, hsr] <;> rfl
  · rcases hp with ⟨hret, hb, hc⟩ | ⟨hret, str, hstr, hq⟩
    · refine ⟨dev.calls, [], true, hc, hdr, hdw, rfl, hb, ?_⟩
      exact ⟨fun _ => ⟨dev, hdev, Or.inl hret⟩, fun _ => rfl⟩
    · obtain ⟨_, _, _, hsr, hsw, _⟩ := PAOpenStream_counts env dev.p_aout str hstr 0 []
      unfold readyCount at hsr
      unfold waitCount at hsw
      rcases hq with ⟨hret2, hb, hc⟩ | ⟨hret2, hb, w, hw, hc⟩
      · refine ⟨dev.calls ++ str.calls, [Call.Pa_Terminate], true, ?_, ?_, ?_, rfl, hb, ?_⟩
        · simp [hc]
        · rw [List.countP_append, hdr, hsr]
        · rw [List.countP_append, hdw, hsw]
        · exact ⟨fun _ => ⟨dev, hdev, Or.inr ⟨str, hstr, hret2⟩⟩, fun _ => rfl⟩
      · refine ⟨dev.calls ++ str.calls,
          w ++ [Call.Pa_StopStream str.p_aout.p_sys.p_stream,
                Call.Pa_CloseStream str.p_aout.p_sys.p_stream, Call.Pa_Terminate],
          pa.b_error, ?_, ?_, ?_, ?_, hb, ?_⟩
        · simp [hc]
        · rw [List.countP_append, hdr, hsr]
        · rw [List.countP_append, hdw, hsw]
        · rcases hw with hw | hw <;> subst hw <;> rfl
        · rw [hpa]
          constructor
          · intro hf; exact Bool.noConfusion hf
          · rintro ⟨dev', hdev', hfail⟩
            rw [hdev] at hdev'
            have hdd := Option.some.inj hdev'
            subst hdd
            rcases hfail with hf | ⟨str', hstr', hf⟩
            · exact absurd hret hf
            · rw [hstr] at hstr'
              have hss := Option.some.inj hstr'
              subst hss
              exact absurd hret2 hf
  · intro oenv a0 r hopen hsucc
    unfold Open at hopen
    have hne1 : VLC_ENOMEM ≠ VLC_SUCCESS := by decide
    have hne2 : VLC_EGENERIC ≠ VLC_SUCCESS := by decide
    by_cases hm : oenv.malloc_fails = true
    · rw [if_pos hm] at hopen
      have := Option.some.inj hopen
      subst this
      exact absurd hsucc hne1
    · rw [if_neg hm] at hopen
      cases hdev0 : PAOpenDevice oenv.first (Open_p_sys oenv a0) with
      | none => simp only [hdev0] at hopen; exact Option.noConfusion hopen
      | some dev0 =>
        simp only [hdev0] at hopen
        by_cases hd0 : dev0.ret = VLC_SUCCESS
        · rw [if_neg (not_not.mpr hd0)] at hopen
          by_cases hcreate : oenv.vlc_thread_create_fails = true
          · rw [if_pos hcreate] at hopen
            have := Option.some.inj hopen
            subst this
            exact absurd hsucc hne2
          · rw [if_neg hcreate] at hopen
            cases hsetup : PORTAUDIOThread_setup oenv.thread
                { b_error := false, b_die := false } dev0.p_aout with
            | none => simp only [hsetup] at hopen; exact Option.noConfusion hopen
            | some p =>
              obtain ⟨next, t⟩ := p
              simp only [hsetup] at hopen
              by_cases hberr : t.pa_thread.b_error = true
              · rw [if_pos hberr] at hopen
                have := Option.some.inj hopen
                subst this
                exact absurd hsucc hne2
              · obtain ⟨dev1, hdev1, hp1⟩ :=
                  PORTAUDIOThread_setup_paths oenv.thread _ dev0.p_aout next t hsetup
                rcases hp1 with ⟨_, _, ht⟩ | ⟨hret1, str1, hstr1, hq1⟩
                · subst ht; exact absurd rfl hberr
                · rcases hq1 with ⟨_, _, ht⟩ | ⟨hret2, _, _⟩
                  · subst ht; exact absurd rfl hberr
                  · exact ⟨dev0, dev1, str1, rfl, hd0, hdev1, hret1, hstr1, hret2⟩
        · rw [if_pos hd0] at hopen
          have := Option.some.inj hopen
          subst this
          exact absurd hsucc hne2

/-- Witness for C9: the thread on the six-channel card, and an `Open` that succeeds. -/
theorem PORTAUDIOThread_ready_once_witness :
    thread0.b_error = false ∧
    PORTAUDIOThread (envOk [card6] AOUT_VAR_STEREO) thread0 (aout0 0) = some ran6 ∧
    readyCount ran6.calls = 1 ∧ ran6.pa_thread.b_error = false ∧
    (∃ r, Open openEnvOk (aout0 0) = some r ∧ r.ret = VLC_SUCCESS) ∧
    ∃ dev0 dev str : OpenResult,
      PAOpenDevice openEnvOk.first (Open_p_sys openEnvOk (aout0 0)) = some dev0 ∧
      dev0.ret = VLC_SUCCESS ∧
      PAOpenDevice openEnvOk.thread dev0.p_aout = some dev ∧ dev.ret = VLC_SUCCESS ∧
      PAOpenStream openEnvOk.thread dev.p_aout = some str ∧ str.ret = VLC_SUCCESS :=
  ⟨rfl, by decide,
   (PORTAUDIOThread_ready_once (envOk [card6] AOUT_VAR_STEREO) thread0 (aout0 0) ran6 rfl
      (by decide)).1,
   by decide, ⟨_, rfl, by decide⟩,
   (PORTAUDIOThread_ready_once (envOk [card6] AOUT_VAR_STEREO) thread0 (aout0 0) ran6 rfl
      (by decide)).2.2 openEnvOk (aout0 0)
      ((Open openEnvOk (aout0 0)).getD { ret := VLC_EGENERIC, p_aout := aout0 0, calls := [] })
      (by decide) (by decide)⟩

/-- C10. Engine initialisation is always balanced by termination.
(a) When `PAOpenDevice` returns failure, it made as many `Pa_Terminate` calls as
successful `Pa_Initialize` calls: one each when `Pa_Initialize` succeeded, none
when it failed; and every `Pa_Terminate` undoes an initialisation made before
it, so the engine is back at the depth it started from.
(b) When `PORTAUDIOThread` returns, on any of its paths, the same holds of the
whole run of the thread. -/
theorem engine_initialisation_balanced (env : PaEnv) (pa : pa_thread_t) (a : aout_instance_t) :
    (∀ r, PAOpenDevice env a = some r → r.ret ≠ VLC_SUCCESS →
      terminateCount r.calls = initializeCount r.calls ∧
      (env.r_Initialize = paNoError → initializeCount r.calls = 1) ∧
      (env.r_Initialize ≠ paNoError → initializeCount r.calls = 0) ∧
      ∀ k, engineDepth k r.calls = some k) ∧
    (∀ T, PORTAUDIOThread env pa a = some T →
      terminateCount T.calls = initializeCount T.calls ∧
      initializeCount T.calls ≤ 1 ∧
      ∀ k, engineDepth k T.calls = some k) := by
  have hne : VLC_EGENERIC ≠ VLC_SUCCESS := by decide
  constructor
  · intro r hr hfail
    have hbal := fun k => ((PAOpenDevice_depth env a r hr k []).1 hfail)
    refine ⟨(hbal 0).1, ?_, ?_, ?_⟩
    · intro hinit
      unfold initializeCount
      rcases PAOpenDevice_shape env a r hr with ⟨hi, _, _⟩ | ⟨l, _, hc⟩ | ⟨l, hs, _, _⟩
      · exact absurd hinit hi
      · rw [hc]
        simp only [List.countP_append, countP_deviceInfo isInitializeOk (fun _ => rfl) l]
        decide
      · exact absurd hs hfail
    · intro hinit
      unfold initializeCount
      rcases PAOpenDevice_shape env a r hr with ⟨hi, _, hc⟩ | ⟨l, _, hc⟩ | ⟨l, hs, _, _⟩
      · rw [hc]
        have hb : (env.r_Initialize == paNoError) = false := by simpa using hi
        simp [List.countP_cons, isInitializeOk, hb]
      · exfalso
        unfold PAOpenDevice at hr
        rw [if_pos hinit] at hr
        have := Option.some.inj hr
        subst this
        revert hc
        simp only [List.cons_append, List.nil_append, List.cons.injEq, Call.Pa_Initialize.injEq]
        intro h
        exact hinit h.1
      · exact absurd hs hfail
    · intro k
      have := (hbal k).2
      rw [List.append_nil] at this
      rw [this]
      rfl
  · intro T hT
    obtain ⟨dev, hdev, hp⟩ := PORTAUDIOThread_paths env pa a T hT
    unfold terminateCount initializeCount
    rcases hp with ⟨hret, _, hc⟩ | ⟨hret, str, hstr, hq⟩
    · obtain ⟨hcnt, _⟩ := (PAOpenDevice_depth env a dev hdev 0 []).1 hret
      unfold terminateCount initializeCount at hcnt
      have hle : List.countP isInitializeOk dev.calls ≤ 1 := by
        rcases PAOpenDevice_shape env a dev hdev with ⟨hi, _, hc'⟩ | ⟨l, _, hc'⟩ | ⟨l, hs, _, _⟩
        · rw [hc']
          have hb : (env.r_Initialize == paNoError) = false := by simpa using hi
          simp [List.countP_cons, isInitializeOk, hb]
        · rw [hc']
          simp only [List.countP_append, countP_deviceInfo isInitializeOk (fun _ => rfl) l]
          decide
        · exact absurd hs hret
      refine ⟨?_, ?_, ?_⟩
      · rw [hc, List.countP_append, List.countP_append, hcnt]; rfl
      · rw [hc, List.countP_append]; exact hle
      · intro k
        rw [hc, ((PAOpenDevice_depth env a dev hdev k _).1 hret).2]
        rfl
    · obtain ⟨ht0, hi1, _⟩ := (PAOpenDevice_depth env a dev hdev 0 []).2 hret
      unfold terminateCount at ht0
      unfold initializeCount at hi1
      obtain ⟨hst, hsi, _, _, _, _⟩ := PAOpenStream_counts env dev.p_aout str hstr 0 []
      unfold terminateCount at hst
      unfold initializeCount at hsi
      rcases hq with ⟨_, _, hc⟩ | ⟨_, _, w, hw, hc⟩
      · refine ⟨?_, ?_, ?_⟩
        · rw [hc]; simp only [List.countP_append, ht0, hi1, hst, hsi]; rfl
        · rw [hc]; simp only [List.countP_append, hi1, hsi]; exact Nat.le_refl 1
        · intro k
          rw [hc, List.append_assoc, ((PAOpenDevice_depth env a dev hdev k _).2 hret).2.2,
            (PAOpenStream_counts env dev.p_aout str hstr (k + 1) _).2.2.2.2.2]
          rfl
      · refine ⟨?_, ?_, ?_⟩
        · rw [hc]
          rcases hw with hw | hw <;> subst hw <;>
            simp only [List.countP_append, ht0, hi1, hst, hsi] <;> rfl
        · rw [hc]
          rcases hw with hw | hw <;> subst hw <;>
            simp only [List.countP_append, hi1, hsi] <;> exact Nat.le_refl 1
        · intro k
          rw [hc]
          simp only [List.append_assoc]
          rw [((PAOpenDevice_depth env a dev hdev k _).2 hret).2.2,
            (PAOpenStream_counts env dev.p_aout str hstr (k + 1) _).2.2.2.2.2]
          rcases hw with hw | hw <;> subst hw <;> rfl

/-- Witness for C10: a rejected index, and the thread run in which
`Pa_StartStream` fails. -/
theorem engine_initialisation_balanced_witness :
    (PAOpenDevice (envOk [card6] AOUT_VAR_STEREO) (aout0 3) = some rejected3 ∧
      rejected3.ret ≠ VLC_SUCCESS ∧
      terminateCount rejected3.calls = 1 ∧ initializeCount rejected3.calls = 1 ∧
      engineDepth 0 rejected3.calls = some 0) ∧
    (PORTAUDIOThread envStartFails thread0 (aout0 0) = some ranStartFails ∧
      terminateCount ranStartFails.calls = initializeCount ranStartFails.calls ∧
      initializeCount ranStartFails.calls = 1 ∧
      engineDepth 0 ranStartFails.calls = some 0) :=
  ⟨⟨by decide, by decide, by decide, by decide,
    ((engine_initialisation_balanced (envOk [card6] AOUT_VAR_STEREO) thread0 (aout0 3)).1
      rejected3 (by decide) (by decide)).2.2.2 0⟩,
   ⟨by decide,
    ((engine_initialisation_balanced envStartFails thread0 (aout0 0)).2
      ranStartFails (by decide)).1,
    by decide,
    ((engine_initialisation_balanced envStartFails thread0 (aout0 0)).2
      ranStartFails (by decide)).2.2 0⟩⟩

/-- C8, the code at a wake-up that is not `Close`'s: every native call succeeds,
the stop flag is false when the thread takes the lock, and `vlc_cond_wait`
returns while the flag is still false. The thread does not test the flag again:
it goes on to `Pa_StopStream`, `Pa_CloseStream` and `Pa_Terminate` with `b_die`
false. -/
theorem PORTAUDIOThread_teardown_without_stop :
    envSpurious.b_die_at_lock = false ∧ envSpurious.b_die_after_wait = false ∧
    ∃ T, PORTAUDIOThread envSpurious thread0 (aout0 0) = some T ∧
      T.pa_thread.b_die = false ∧ T.pa_thread.b_error = false ∧
      T.calls = [Call.Pa_Initialize paNoError, Call.Pa_GetDeviceCount, Call.Pa_GetDeviceInfo 0,
        Call.Pa_GetDeviceInfo 0, Call.var_Get_audio_device,
        Call.Pa_OpenStream 0 2 1024 paNoError, Call.Pa_StartStream (some 7) paNoError,
        Call.vlc_thread_ready false, Call.vlc_cond_wait false,
        Call.Pa_StopStream (some 7), Call.Pa_CloseStream (some 7), Call.Pa_Terminate] :=
  ⟨rfl, rfl, _, rfl, by decide, by decide, by decide⟩

end PortAudio
